import Mathlib

/-!
Verification of the NuNuCryoShaker MCU firmware specification against the
firmware sources.  Each component that the specification's testable
properties mention is shallowly embedded: byte buffers become `List Nat`
(each element a byte value `< 256`), machine integers become `Nat`/`Int`
with explicit masking where the C code relies on fixed-width wraparound,
and fallible C functions returning `esp_err_t` become `Option`/`Except`
valued Lean functions.  Stateful components (session manager, machine
state machine) are embedded as explicit state records with step relations.
-/

set_option maxRecDepth 10000

/-! ## Wire protocol (src/firmware/components/wire_protocol/wire_protocol.c) -/

def WIRE_PROTO_VERSION : Nat := 0x01

def WIRE_HEADER_SIZE : Nat := 6

def WIRE_CRC_SIZE : Nat := 2

def WIRE_MAX_PAYLOAD : Nat := 512

/-- The CRC-16/CCITT-FALSE lookup table from `wire_protocol.c` (poly 0x1021,
init 0xFFFF), transcribed entry for entry. -/
def crc16_table : List Nat := [
  0x0000, 0x1021, 0x2042, 0x3063, 0x4084, 0x50A5, 0x60C6, 0x70E7,
  0x8108, 0x9129, 0xA14A, 0xB16B, 0xC18C, 0xD1AD, 0xE1CE, 0xF1EF,
  0x1231, 0x0210, 0x3273, 0x2252, 0x52B5, 0x4294, 0x72F7, 0x62D6,
  0x9339, 0x8318, 0xB37B, 0xA35A, 0xD3BD, 0xC39C, 0xF3FF, 0xE3DE,
  0x2462, 0x3443, 0x0420, 0x1401, 0x64E6, 0x74C7, 0x44A4, 0x5485,
  0xA56A, 0xB54B, 0x8528, 0x9509, 0xE5EE, 0xF5CF, 0xC5AC, 0xD58D,
  0x3653, 0x2672, 0x1611, 0x0630, 0x76D7, 0x66F6, 0x5695, 0x46B4,
  0xB75B, 0xA77A, 0x9719, 0x8738, 0xF7DF, 0xE7FE, 0xD79D, 0xC7BC,
  0x48C4, 0x58E5, 0x6886, 0x78A7, 0x0840, 0x1861, 0x2802, 0x3823,
  0xC9CC, 0xD9ED, 0xE98E, 0xF9AF, 0x8948, 0x9969, 0xA90A, 0xB92B,
  0x5AF5, 0x4AD4, 0x7AB7, 0x6A96, 0x1A71, 0x0A50, 0x3A33, 0x2A12,
  0xDBFD, 0xCBDC, 0xFBBF, 0xEB9E, 0x9B79, 0x8B58, 0xBB3B, 0xAB1A,
  0x6CA6, 0x7C87, 0x4CE4, 0x5CC5, 0x2C22, 0x3C03, 0x0C60, 0x1C41,
  0xEDAE, 0xFD8F, 0xCDEC, 0xDDCD, 0xAD2A, 0xBD0B, 0x8D68, 0x9D49,
  0x7E97, 0x6EB6, 0x5ED5, 0x4EF4, 0x3E13, 0x2E32, 0x1E51, 0x0E70,
  0xFF9F, 0xEFBE, 0xDFDD, 0xCFFC, 0xBF1B, 0xAF3A, 0x9F59, 0x8F78,
  0x9188, 0x81A9, 0xB1CA, 0xA1EB, 0xD10C, 0xC12D, 0xF14E, 0xE16F,
  0x1080, 0x00A1, 0x30C2, 0x20E3, 0x5004, 0x4025, 0x7046, 0x6067,
  0x83B9, 0x9398, 0xA3FB, 0xB3DA, 0xC33D, 0xD31C, 0xE37F, 0xF35E,
  0x02B1, 0x1290, 0x22F3, 0x32D2, 0x4235, 0x5214, 0x6277, 0x7256,
  0xB5EA, 0xA5CB, 0x95A8, 0x8589, 0xF56E, 0xE54F, 0xD52C, 0xC50D,
  0x34E2, 0x24C3, 0x14A0, 0x0481, 0x7466, 0x6447, 0x5424, 0x4405,
  0xA7DB, 0xB7FA, 0x8799, 0x97B8, 0xE75F, 0xF77E, 0xC71D, 0xD73C,
  0x26D3, 0x36F2, 0x0691, 0x16B0, 0x6657, 0x7676, 0x4615, 0x5634,
  0xD94C, 0xC96D, 0xF90E, 0xE92F, 0x99C8, 0x89E9, 0xB98A, 0xA9AB,
  0x5844, 0x4865, 0x7806, 0x6827, 0x18C0, 0x08E1, 0x3882, 0x28A3,
  0xCB7D, 0xDB5C, 0xEB3F, 0xFB1E, 0x8BF9, 0x9BD8, 0xABBB, 0xBB9A,
  0x4A75, 0x5A54, 0x6A37, 0x7A16, 0x0AF1, 0x1AD0, 0x2AB3, 0x3A92,
  0xFD2E, 0xED0F, 0xDD6C, 0xCD4D, 0xBDAA, 0xAD8B, 0x9DE8, 0x8DC9,
  0x7C26, 0x6C07, 0x5C64, 0x4C45, 0x3CA2, 0x2C83, 0x1CE0, 0x0CC1,
  0xEF1F, 0xFF3E, 0xCF5D, 0xDF7C, 0xAF9B, 0xBFBA, 0x8FD9, 0x9FF8,
  0x6E17, 0x7E36, 0x4E55, 0x5E74, 0x2E93, 0x3EB2, 0x0ED1, 0x1EF0]

/-- Table lookup `crc16_table[i]` (index is already masked to 8 bits at
every call site, mirroring the `& 0xFF` in the C code). -/
def crc16_tbl (i : Nat) : Nat := crc16_table.getD i 0

/-- One iteration of the loop body of `wire_crc16`:
`crc = (crc << 8) ^ crc16_table[((crc >> 8) ^ data[i]) & 0xFF]`, with the
truncation to `uint16_t` made explicit. -/
def crc16_step (crc b : Nat) : Nat :=
  ((crc <<< 8) ^^^ crc16_tbl (((crc >>> 8) ^^^ b) &&& 0xFF)) &&& 0xFFFF

/-- Running the CRC from an arbitrary accumulator (the loop of
`wire_crc16` starting from `a`). -/
def crc16_from (a : Nat) (data : List Nat) : Nat := data.foldl crc16_step a

/-- `wire_crc16`: CRC-16/CCITT-FALSE over a byte sequence, init 0xFFFF. -/
def wire_crc16 (data : List Nat) : Nat := crc16_from 0xFFFF data

/-- `wire_frame_header_t`. -/
structure wire_frame_header_t where
  proto_ver : Nat
  msg_type : Nat
  seq : Nat
  payload_len : Nat
deriving Repr, DecidableEq

/-- `wire_build_frame`.  Returns `none` where the C function returns 0
(output buffer too small or payload longer than `WIRE_MAX_PAYLOAD`);
otherwise the complete frame bytes. -/
def wire_build_frame (out_buf_size : Nat) (msg_type seq : Nat)
    (payload : List Nat) : Option (List Nat) :=
  let total_len := WIRE_HEADER_SIZE + payload.length + WIRE_CRC_SIZE
  if out_buf_size < total_len ∨ payload.length > WIRE_MAX_PAYLOAD then
    none
  else
    let header : List Nat :=
      [WIRE_PROTO_VERSION, msg_type,
       seq &&& 0xFF, (seq >>> 8) &&& 0xFF,
       payload.length &&& 0xFF, (payload.length >>> 8) &&& 0xFF]
    let crc := wire_crc16 (header ++ payload)
    some (header ++ payload ++ [crc &&& 0xFF, (crc >>> 8) &&& 0xFF])

/-- Little-endian 16-bit read `buf[i] | (buf[i+1] << 8)`. -/
def read16le (buf : List Nat) (i : Nat) : Nat :=
  buf.getD i 0 ||| (buf.getD (i + 1) 0 <<< 8)

/-- `wire_parse_frame`.  Returns `none` exactly where the C function
returns `false`; on success the parsed header and the payload slice.  The
C locals (`header`, `expected_len`, `crc_offset`, `received_crc`,
`computed_crc`) are written inline: `read16le frame 4` is the declared
`payload_len`, `WIRE_HEADER_SIZE + read16le frame 4` the CRC offset. -/
def wire_parse_frame (frame : List Nat) :
    Option (wire_frame_header_t × List Nat) :=
  if frame.length < WIRE_HEADER_SIZE + WIRE_CRC_SIZE then
    none
  else if frame.getD 0 0 ≠ WIRE_PROTO_VERSION then
    none
  else if frame.length < WIRE_HEADER_SIZE + read16le frame 4 + WIRE_CRC_SIZE
      ∨ read16le frame 4 > WIRE_MAX_PAYLOAD then
    none
  else if read16le frame (WIRE_HEADER_SIZE + read16le frame 4) ≠
      wire_crc16 (frame.take (WIRE_HEADER_SIZE + read16le frame 4)) then
    none
  else
    some ({ proto_ver := frame.getD 0 0
            msg_type := frame.getD 1 0
            seq := read16le frame 2
            payload_len := read16le frame 4 },
          (frame.drop WIRE_HEADER_SIZE).take (read16le frame 4))

/-! ## Arithmetic helpers for byte and 16-bit manipulation -/

theorem and255_lt (x : Nat) : x &&& 255 < 256 := by
  have h := Nat.and_lt_two_pow x (show (255 : Nat) < 2 ^ 8 by norm_num)
  norm_num at h
  exact h

theorem and255_eq_mod (x : Nat) : x &&& 255 = x % 256 := by
  have h := Nat.and_pow_two_sub_one_eq_mod x 8
  norm_num at h
  exact h

theorem and255_of_lt {x : Nat} (h : x < 256) : x &&& 255 = x := by
  rw [and255_eq_mod]
  omega

theorem and65535_eq_mod (x : Nat) : x &&& 65535 = x % 65536 := by
  have h := Nat.and_pow_two_sub_one_eq_mod x 16
  norm_num at h
  exact h

theorem shiftRight8_eq_div (x : Nat) : x >>> 8 = x / 256 := by
  rw [Nat.shiftRight_eq_div_pow]

/-- Recombining the low and high byte of a 16-bit value, exactly in the
shape produced by the build/parse little-endian code. -/
theorem lo_hi_or_eq {v : Nat} (h : v < 65536) :
    (v &&& 255) ||| (((v >>> 8) &&& 255) <<< 8) = v := by
  have h2 : v >>> 8 = v / 256 := shiftRight8_eq_div v
  have h3 : v / 256 < 256 := by omega
  have h4 : (v >>> 8) &&& 255 = v / 256 := by
    rw [h2]
    exact and255_of_lt h3
  rw [and255_eq_mod, h4, Nat.shiftLeft_eq]
  have h6 := Nat.mul_add_lt_is_or (show v % 256 < 2 ^ 8 by norm_num; omega) (v / 256)
  calc v % 256 ||| v / 256 * 2 ^ 8
      = 2 ^ 8 * (v / 256) ||| v % 256 := by rw [Nat.or_comm, Nat.mul_comm]
    _ = 2 ^ 8 * (v / 256) + v % 256 := h6.symm
    _ = v := by
        have h7 := Nat.div_add_mod v 256
        norm_num
        omega

theorem crc16_step_lt (c b : Nat) : crc16_step c b < 65536 := by
  unfold crc16_step
  have h := @Nat.and_le_right
    ((c <<< 8) ^^^ crc16_tbl (((c >>> 8) ^^^ b) &&& 0xFF)) 65535
  omega

theorem crc16_from_lt (l : List Nat) (a : Nat) (ha : a < 65536) :
    crc16_from a l < 65536 := by
  induction l generalizing a with
  | nil => exact ha
  | cons x xs ih =>
      show crc16_from (crc16_step a x) xs < 65536
      exact ih _ (crc16_step_lt a x)

theorem wire_crc16_lt (l : List Nat) : wire_crc16 l < 65536 :=
  crc16_from_lt l 0xFFFF (by norm_num)

theorem getD_append_right_nat (l₁ l₂ : List Nat) (i : Nat) (h : l₁.length ≤ i) :
    (l₁ ++ l₂).getD i 0 = l₂.getD (i - l₁.length) 0 := by
  simp [List.getD_eq_getElem?_getD, List.getElem?_append_right h]

/-! ## Frame round trip (C2) -/

/-- Header-plus-payload prefix of a built frame (the region the CRC is
computed over). -/
def wireFront (msg_type seq : Nat) (payload : List Nat) : List Nat :=
  [WIRE_PROTO_VERSION, msg_type,
   seq &&& 0xFF, (seq >>> 8) &&& 0xFF,
   payload.length &&& 0xFF, (payload.length >>> 8) &&& 0xFF] ++ payload

theorem wire_build_frame_eq (msg_type seq : Nat) (payload : List Nat)
    (out_buf_size : Nat)
    (h : 6 + payload.length + 2 ≤ out_buf_size) (h2 : payload.length ≤ 512) :
    wire_build_frame out_buf_size msg_type seq payload =
      some (wireFront msg_type seq payload ++
            [wire_crc16 (wireFront msg_type seq payload) &&& 0xFF,
             (wire_crc16 (wireFront msg_type seq payload) >>> 8) &&& 0xFF]) := by
  show (if out_buf_size < 6 + payload.length + 2 ∨ payload.length > 512
        then (none : Option (List Nat))
        else some ([WIRE_PROTO_VERSION, msg_type,
            seq &&& 0xFF, (seq >>> 8) &&& 0xFF,
            payload.length &&& 0xFF, (payload.length >>> 8) &&& 0xFF] ++ payload ++
          [wire_crc16 ([WIRE_PROTO_VERSION, msg_type,
            seq &&& 0xFF, (seq >>> 8) &&& 0xFF,
            payload.length &&& 0xFF, (payload.length >>> 8) &&& 0xFF] ++ payload) &&& 0xFF,
           (wire_crc16 ([WIRE_PROTO_VERSION, msg_type,
            seq &&& 0xFF, (seq >>> 8) &&& 0xFF,
            payload.length &&& 0xFF, (payload.length >>> 8) &&& 0xFF] ++ payload) >>> 8) &&& 0xFF]))
      = _
  rw [if_neg (by omega)]
  rfl

theorem wireFront_length (msg_type seq : Nat) (payload : List Nat) :
    (wireFront msg_type seq payload).length = 6 + payload.length := by
  simp [wireFront]
  omega

theorem wire_parse_built (msg_type seq : Nat) (payload : List Nat)
    (hseq : seq < 65536) (hlen : payload.length ≤ 512) :
    wire_parse_frame (wireFront msg_type seq payload ++
        [wire_crc16 (wireFront msg_type seq payload) &&& 0xFF,
         (wire_crc16 (wireFront msg_type seq payload) >>> 8) &&& 0xFF]) =
      some ({ proto_ver := 1, msg_type := msg_type, seq := seq,
              payload_len := payload.length }, payload) := by
  have hclt : wire_crc16 (wireFront msg_type seq payload) < 65536 :=
    wire_crc16_lt _
  generalize hc : wire_crc16 (wireFront msg_type seq payload) = c at hclt
  have hlenW := wireFront_length msg_type seq payload
  have hlenF : (wireFront msg_type seq payload ++
      [c &&& 0xFF, (c >>> 8) &&& 0xFF]).length = 6 + payload.length + 2 := by
    simp [wireFront]
    omega
  have h0 : (wireFront msg_type seq payload ++
      [c &&& 0xFF, (c >>> 8) &&& 0xFF]).getD 0 0 = 1 := rfl
  have h1 : (wireFront msg_type seq payload ++
      [c &&& 0xFF, (c >>> 8) &&& 0xFF]).getD 1 0 = msg_type := rfl
  have h2 : read16le (wireFront msg_type seq payload ++
      [c &&& 0xFF, (c >>> 8) &&& 0xFF]) 2 = seq := by
    show (wireFront msg_type seq payload ++
        [c &&& 0xFF, (c >>> 8) &&& 0xFF]).getD 2 0 |||
      ((wireFront msg_type seq payload ++
        [c &&& 0xFF, (c >>> 8) &&& 0xFF]).getD (2 + 1) 0 <<< 8) = seq
    have e2 : (wireFront msg_type seq payload ++
        [c &&& 0xFF, (c >>> 8) &&& 0xFF]).getD 2 0 = seq &&& 0xFF := rfl
    have e3 : (wireFront msg_type seq payload ++
        [c &&& 0xFF, (c >>> 8) &&& 0xFF]).getD (2 + 1) 0 =
        (seq >>> 8) &&& 0xFF := rfl
    rw [e2, e3]
    exact lo_hi_or_eq hseq
  have h4 : read16le (wireFront msg_type seq payload ++
      [c &&& 0xFF, (c >>> 8) &&& 0xFF]) 4 = payload.length := by
    show (wireFront msg_type seq payload ++
        [c &&& 0xFF, (c >>> 8) &&& 0xFF]).getD 4 0 |||
      ((wireFront msg_type seq payload ++
        [c &&& 0xFF, (c >>> 8) &&& 0xFF]).getD (4 + 1) 0 <<< 8) = payload.length
    have e4 : (wireFront msg_type seq payload ++
        [c &&& 0xFF, (c >>> 8) &&& 0xFF]).getD 4 0 =
        payload.length &&& 0xFF := rfl
    have e5 : (wireFront msg_type seq payload ++
        [c &&& 0xFF, (c >>> 8) &&& 0xFF]).getD (4 + 1) 0 =
        (payload.length >>> 8) &&& 0xFF := rfl
    rw [e4, e5]
    exact lo_hi_or_eq (by omega)
  have htake : (wireFront msg_type seq payload ++
      [c &&& 0xFF, (c >>> 8) &&& 0xFF]).take (6 + payload.length) =
      wireFront msg_type seq payload :=
    List.take_left' hlenW
  have hcomp : wire_crc16 ((wireFront msg_type seq payload ++
      [c &&& 0xFF, (c >>> 8) &&& 0xFF]).take (6 + payload.length)) = c := by
    rw [htake, hc]
  have hrecv : read16le (wireFront msg_type seq payload ++
      [c &&& 0xFF, (c >>> 8) &&& 0xFF]) (6 + payload.length) = c := by
    show (wireFront msg_type seq payload ++
        [c &&& 0xFF, (c >>> 8) &&& 0xFF]).getD (6 + payload.length) 0 |||
      ((wireFront msg_type seq payload ++
        [c &&& 0xFF, (c >>> 8) &&& 0xFF]).getD (6 + payload.length + 1) 0 <<< 8) = c
    have e6 : (wireFront msg_type seq payload ++
        [c &&& 0xFF, (c >>> 8) &&& 0xFF]).getD (6 + payload.length) 0 =
        c &&& 0xFF := by
      rw [getD_append_right_nat _ _ _ (le_of_eq hlenW), hlenW]
      simp
    have e7 : (wireFront msg_type seq payload ++
        [c &&& 0xFF, (c >>> 8) &&& 0xFF]).getD (6 + payload.length + 1) 0 =
        (c >>> 8) &&& 0xFF := by
      rw [getD_append_right_nat _ _ _ (by omega), hlenW]
      have : 6 + payload.length + 1 - (6 + payload.length) = 1 := by omega
      rw [this]
      simp
    rw [e6, e7]
    exact lo_hi_or_eq hclt
  have hdrop : ((wireFront msg_type seq payload ++
      [c &&& 0xFF, (c >>> 8) &&& 0xFF]).drop 6).take payload.length = payload := by
    have hassoc : wireFront msg_type seq payload ++
        [c &&& 0xFF, (c >>> 8) &&& 0xFF] =
        [WIRE_PROTO_VERSION, msg_type, seq &&& 0xFF, (seq >>> 8) &&& 0xFF,
         payload.length &&& 0xFF, (payload.length >>> 8) &&& 0xFF] ++
        (payload ++ [c &&& 0xFF, (c >>> 8) &&& 0xFF]) := by
      rw [wireFront, List.append_assoc]
    rw [hassoc, List.drop_left' (by simp), List.take_left' rfl]
  simp only [wire_parse_frame, WIRE_HEADER_SIZE, WIRE_CRC_SIZE,
    WIRE_MAX_PAYLOAD, WIRE_PROTO_VERSION]
  rw [h0, h2, h4, hrecv, hcomp, h1, hdrop]
  rw [if_neg (by omega), if_neg (by simp), if_neg (by omega), if_neg (by simp)]

/-- Claim C2: for every `msg_type`, every `seq`, and every payload of at
most 512 bytes, parsing the frame produced by `wire_build_frame` succeeds
and returns a header with `proto_ver = 1` and the built `msg_type`, `seq`
and `payload_len`, together with the payload byte-for-byte. -/
theorem frame_round_trip_C2
    (msg_type seq : Nat) (payload : List Nat) (out_buf_size : Nat)
    (hmt : msg_type < 256) (hseq : seq < 65536)
    (hbytes : ∀ b ∈ payload, b < 256)
    (hlen : payload.length ≤ WIRE_MAX_PAYLOAD)
    (hbuf : WIRE_HEADER_SIZE + payload.length + WIRE_CRC_SIZE ≤ out_buf_size) :
    ∃ frame,
      wire_build_frame out_buf_size msg_type seq payload = some frame ∧
      wire_parse_frame frame =
        some ({ proto_ver := 1, msg_type := msg_type, seq := seq,
                payload_len := payload.length }, payload) := by
  simp only [WIRE_MAX_PAYLOAD, WIRE_HEADER_SIZE, WIRE_CRC_SIZE] at hlen hbuf
  exact ⟨_, wire_build_frame_eq msg_type seq payload out_buf_size hbuf hlen,
    wire_parse_built msg_type seq payload hseq hlen⟩

/-- Witness for C2 at a concrete frame: message type 0x10, sequence
0x0102, payload `[0xAB, 0xCD]`, 32-byte output buffer. -/
theorem frame_round_trip_C2_witness :
    ∃ frame,
      wire_build_frame 32 0x10 0x0102 [0xAB, 0xCD] = some frame ∧
      wire_parse_frame frame =
        some ({ proto_ver := 1, msg_type := 0x10, seq := 0x0102,
                payload_len := 2 }, [0xAB, 0xCD]) := by
  have h := frame_round_trip_C2 0x10 0x0102 [0xAB, 0xCD] 32
    (by norm_num) (by norm_num) (by decide) (by norm_num [WIRE_MAX_PAYLOAD])
    (by norm_num [WIRE_HEADER_SIZE, WIRE_CRC_SIZE])
  simpa using h

/-! ## Parse rejection conditions (C5) -/

/-- The rejection condition as the specification words it (§4.1): version
byte ≠ 1; total length < header+CRC; declared payload length > max; the
declared payload length not matching the buffer length (buffer length
differing from header + declared length + CRC); or CRC mismatch.  Stated
from the specification for comparison against `wire_parse_frame`. -/
abbrev spec_parse_reject (frame : List Nat) : Prop :=
  frame.getD 0 0 ≠ 1 ∨
  frame.length < 8 ∨
  read16le frame 4 > 512 ∨
  frame.length ≠ 6 + read16le frame 4 + 2 ∨
  read16le frame (6 + read16le frame 4) ≠
    wire_crc16 (frame.take (6 + read16le frame 4))

/-- A frame built by `wire_build_frame` (msg type 1, seq 0, empty payload)
with one extra trailing byte appended. -/
def c5_frame : List Nat := (wire_build_frame 32 0x01 0 []).getD [] ++ [0x00]

/-- Counterexample to C5 as stated: `c5_frame` satisfies the spec's
rejection condition (its length differs from header + declared payload
length + CRC), yet `wire_parse_frame` accepts it, because the code only
rejects buffers that are too short. -/
theorem parse_reject_C5_counterexample :
    spec_parse_reject c5_frame ∧ wire_parse_frame c5_frame ≠ none := by
  decide

/-- Claim C5 (amended): parsing fails exactly when at least one of these
holds: the buffer is shorter than header+CRC; the protocol version byte is
not 1; the declared payload length exceeds 512; the buffer length is LESS
than header size + declared payload length + CRC size; or the stored
CRC-16 differs from the CRC-16 computed over header and payload.  (The
original claim required the buffer length to equal the declared length;
the code accepts longer buffers, so the length condition is one-sided.) -/
theorem parse_reject_C5_amended (frame : List Nat) :
    wire_parse_frame frame = none ↔
      (frame.length < 8 ∨
       frame.getD 0 0 ≠ 1 ∨
       read16le frame 4 > 512 ∨
       frame.length < 6 + read16le frame 4 + 2 ∨
       read16le frame (6 + read16le frame 4) ≠
         wire_crc16 (frame.take (6 + read16le frame 4))) := by
  simp only [wire_parse_frame, WIRE_HEADER_SIZE, WIRE_CRC_SIZE,
    WIRE_MAX_PAYLOAD, WIRE_PROTO_VERSION]
  split_ifs with h1 h2 h3 h4
  · simp only [true_iff]
    left
    omega
  · simp only [true_iff]
    right
    left
    exact h2
  · simp only [true_iff]
    rcases h3 with h3 | h3
    · right; right; right; left; omega
    · right; right; left; exact h3
  · simp only [true_iff]
    right; right; right; right
    exact h4
  · refine iff_of_false (by simp) ?_
    push_neg
    refine ⟨by omega, by simpa using h2, ?_, by omega, by simpa using h4⟩
    rcases Nat.lt_or_ge 512 (read16le frame 4) with h | h
    · exact absurd (Or.inr h) h3
    · omega

/-! ## Relay driver (src/firmware/components/relay_ctrl/relay_ctrl.c) -/

/-- The `esp_err_t` values this firmware distinguishes.  `ESP_FAIL` stands
for any nonzero error propagated from the I²C driver. -/
inductive esp_err_t where
  | ESP_OK
  | ESP_ERR_INVALID_STATE
  | ESP_ERR_INVALID_ARG
  | ESP_ERR_NOT_ALLOWED
  | ESP_ERR_NOT_FOUND
  | ESP_FAIL
deriving Repr, DecidableEq

open esp_err_t

def RELAY_STATE_OFF : Nat := 0

def RELAY_STATE_ON : Nat := 1

def RELAY_STATE_TOGGLE : Nat := 2

/-- Driver-visible state of `relay_ctrl.c`: the `s_initialized` flag and
the cached output byte `s_relay_state` (mirror of the TCA9554 output
register). -/
structure relay_ctrl_t where
  initialized : Bool
  relay_state : Nat
deriving Repr, DecidableEq

/-- `relay_ctrl_get_state` (returns the cached byte). -/
def relay_ctrl_get_state (s : relay_ctrl_t) : Nat := s.relay_state

/-- `relay_ctrl_set`.  `hw_write_ok` models the outcome of the single
`tca9554_write_reg` I²C transaction the call performs.  The C `~bit_mask`
on a `uint8_t` operand is the 8-bit complement `255 ^^^ bit_mask`.
Returns the `esp_err_t`, the updated driver state, and whether a hardware
write was attempted. -/
def relay_ctrl_set (s : relay_ctrl_t) (hw_write_ok : Bool)
    (relay_index state : Nat) : esp_err_t × relay_ctrl_t × Bool :=
  if ¬ s.initialized then
    (ESP_ERR_INVALID_STATE, s, false)
  else if relay_index < 1 ∨ relay_index > 8 then
    (ESP_ERR_INVALID_ARG, s, false)
  else if state > 2 then
    (ESP_ERR_INVALID_ARG, s, false)
  else
    let bit_mask := 1 <<< (relay_index - 1)
    let new_state :=
      if state = RELAY_STATE_OFF then s.relay_state &&& (255 ^^^ bit_mask)
      else if state = RELAY_STATE_ON then s.relay_state ||| bit_mask
      else s.relay_state ^^^ bit_mask
    if hw_write_ok then (ESP_OK, { s with relay_state := new_state }, true)
    else (ESP_FAIL, s, true)

/-- `relay_ctrl_set_mask`: atomic masked update
`new = (current & ~mask) | (values & mask)`; a zero mask returns `ESP_OK`
without touching hardware. -/
def relay_ctrl_set_mask (s : relay_ctrl_t) (hw_write_ok : Bool)
    (mask values : Nat) : esp_err_t × relay_ctrl_t × Bool :=
  if ¬ s.initialized then
    (ESP_ERR_INVALID_STATE, s, false)
  else if mask = 0 then
    (ESP_OK, s, false)
  else
    let new_state := (s.relay_state &&& (255 ^^^ mask)) ||| (values &&& mask)
    if hw_write_ok then (ESP_OK, { s with relay_state := new_state }, true)
    else (ESP_FAIL, s, true)

/-- `relay_ctrl_set_all` (writes the byte, updates the cache on success). -/
def relay_ctrl_set_all (s : relay_ctrl_t) (hw_write_ok : Bool)
    (state : Nat) : esp_err_t × relay_ctrl_t × Bool :=
  if ¬ s.initialized then
    (ESP_ERR_INVALID_STATE, s, false)
  else if hw_write_ok then (ESP_OK, { s with relay_state := state }, true)
  else (ESP_FAIL, s, true)

/-- Claim C8: with the driver initialized and a cached byte `current`, a
successful `set_mask` leaves the cache equal to
`(current &&& ¬mask) ||| (values &&& mask)`, and `mask = 0` succeeds
without changing the cache and without a hardware write. -/
theorem relay_set_mask_C8 (s : relay_ctrl_t) (hw : Bool) (mask values : Nat)
    (hinit : s.initialized = true) (hbyte : s.relay_state < 256) :
    ((relay_ctrl_set_mask s true mask values).1 = ESP_OK ∧
     (relay_ctrl_set_mask s true mask values).2.1.relay_state =
       (s.relay_state &&& (255 ^^^ mask)) ||| (values &&& mask)) ∧
    (mask = 0 →
      (relay_ctrl_set_mask s hw mask values).1 = ESP_OK ∧
      (relay_ctrl_set_mask s hw mask values).2.1 = s ∧
      (relay_ctrl_set_mask s hw mask values).2.2 = false) := by
  unfold relay_ctrl_set_mask
  rcases Nat.eq_zero_or_pos mask with hm | hm
  · subst hm
    refine ⟨⟨by simp [hinit], ?_⟩, fun _ => by simp [hinit]⟩
    simp [hinit]
    exact (and255_of_lt hbyte).symm
  · have hm' : mask ≠ 0 := by omega
    exact ⟨⟨by simp [hinit, hm'], by simp [hinit, hm']⟩, fun h => absurd h hm'⟩

/-- Witness for C8: initialized driver with cached byte 0xF0, mask 0x0F,
values 0x05 gives 0xF5; a zero mask is a successful no-op. -/
theorem relay_set_mask_C8_witness :
    ((relay_ctrl_set_mask ⟨true, 0xF0⟩ true 0x0F 0x05).1 = ESP_OK ∧
     (relay_ctrl_set_mask ⟨true, 0xF0⟩ true 0x0F 0x05).2.1.relay_state =
       ((0xF0 : Nat) &&& (255 ^^^ 0x0F)) ||| ((0x05 : Nat) &&& 0x0F)) ∧
    ((0 : Nat) = 0 →
      (relay_ctrl_set_mask ⟨true, 0xF0⟩ false 0 0x05).1 = ESP_OK ∧
      (relay_ctrl_set_mask ⟨true, 0xF0⟩ false 0 0x05).2.1 = ⟨true, 0xF0⟩ ∧
      (relay_ctrl_set_mask ⟨true, 0xF0⟩ false 0 0x05).2.2 = false) := by
  have h := relay_set_mask_C8 ⟨true, 0xF0⟩ false 0x0F 0x05 rfl (by norm_num)
  have h0 := relay_set_mask_C8 ⟨true, 0xF0⟩ false 0 0x05 rfl (by norm_num)
  exact ⟨h.1, fun _ => h0.2 rfl⟩

/-- Claim C10: for `relay_ctrl_set` and `relay_ctrl_set_mask` with valid
arguments on an initialized driver, a failing hardware register write
makes the call return the error with the cached byte (as returned by
`relay_ctrl_get_state`) unchanged, and the cache is updated only when the
hardware write succeeds (a successful write returns `ESP_OK`). -/
theorem relay_hw_failure_C10 (s : relay_ctrl_t)
    (relay_index state mask values : Nat)
    (hinit : s.initialized = true)
    (hidx : 1 ≤ relay_index ∧ relay_index ≤ 8)
    (hstate : state ≤ 2) (hmask : mask ≠ 0) :
    ((relay_ctrl_set s false relay_index state).1 = ESP_FAIL ∧
     relay_ctrl_get_state (relay_ctrl_set s false relay_index state).2.1 =
       relay_ctrl_get_state s) ∧
    ((relay_ctrl_set_mask s false mask values).1 = ESP_FAIL ∧
     relay_ctrl_get_state (relay_ctrl_set_mask s false mask values).2.1 =
       relay_ctrl_get_state s) ∧
    (∀ hw : Bool,
      relay_ctrl_get_state (relay_ctrl_set s hw relay_index state).2.1 ≠
          relay_ctrl_get_state s →
        hw = true ∧ (relay_ctrl_set s hw relay_index state).1 = ESP_OK) ∧
    (∀ hw : Bool,
      relay_ctrl_get_state (relay_ctrl_set_mask s hw mask values).2.1 ≠
          relay_ctrl_get_state s →
        hw = true ∧ (relay_ctrl_set_mask s hw mask values).1 = ESP_OK) := by
  have hidx' : ¬ (relay_index < 1 ∨ relay_index > 8) := by omega
  have hidx2 : ¬ (relay_index = 0 ∨ 8 < relay_index) := by omega
  have hstate' : ¬ (state > 2) := by omega
  refine ⟨?_, ?_, ?_, ?_⟩
  · simp [relay_ctrl_set, relay_ctrl_get_state, hinit, hidx', hidx2, hstate']
  · simp [relay_ctrl_set_mask, relay_ctrl_get_state, hinit, hmask]
  · intro hw
    cases hw
    · simp [relay_ctrl_set, relay_ctrl_get_state, hinit, hidx', hidx2, hstate']
    · simp [relay_ctrl_set, relay_ctrl_get_state, hinit, hidx', hidx2, hstate']
  · intro hw
    cases hw
    · simp [relay_ctrl_set_mask, relay_ctrl_get_state, hinit, hmask]
    · simp [relay_ctrl_set_mask, relay_ctrl_get_state, hinit, hmask]

/-- Witness for C10 at relay index 3, state ON, mask 0x0F, values 0x05 on
an initialized driver with cached byte 0xA0. -/
theorem relay_hw_failure_C10_witness :
    ((relay_ctrl_set ⟨true, 0xA0⟩ false 3 1).1 = ESP_FAIL ∧
     relay_ctrl_get_state (relay_ctrl_set ⟨true, 0xA0⟩ false 3 1).2.1 =
       relay_ctrl_get_state ⟨true, 0xA0⟩) ∧
    ((relay_ctrl_set_mask ⟨true, 0xA0⟩ false 0x0F 0x05).1 = ESP_FAIL ∧
     relay_ctrl_get_state
         (relay_ctrl_set_mask ⟨true, 0xA0⟩ false 0x0F 0x05).2.1 =
       relay_ctrl_get_state ⟨true, 0xA0⟩) ∧
    (∀ hw : Bool,
      relay_ctrl_get_state (relay_ctrl_set ⟨true, 0xA0⟩ hw 3 1).2.1 ≠
          relay_ctrl_get_state ⟨true, 0xA0⟩ →
        hw = true ∧ (relay_ctrl_set ⟨true, 0xA0⟩ hw 3 1).1 = ESP_OK) ∧
    (∀ hw : Bool,
      relay_ctrl_get_state
          (relay_ctrl_set_mask ⟨true, 0xA0⟩ hw 0x0F 0x05).2.1 ≠
          relay_ctrl_get_state ⟨true, 0xA0⟩ →
        hw = true ∧ (relay_ctrl_set_mask ⟨true, 0xA0⟩ hw 0x0F 0x05).1 = ESP_OK) :=
  relay_hw_failure_C10 ⟨true, 0xA0⟩ 3 1 0x0F 0x05 rfl
    (by norm_num) (by norm_num) (by norm_num)

/-! ## Session manager (src/firmware/components/session_mgr/session_mgr.c) -/

def SESSION_DEFAULT_LEASE_MS : Nat := 3000

def SESSION_GRACE_PERIOD_MS : Nat := 500

inductive session_state_t where
  | NONE
  | LIVE
  | STALE
deriving Repr, DecidableEq

/-- `session_info_t`; the timestamp is in microseconds as in the C code. -/
structure session_info_t where
  session_id : Nat
  client_nonce : Nat
  lease_ms : Nat
  last_keepalive_us : Nat
  state : session_state_t
deriving Repr, DecidableEq

/-- `session_mgr_init` / the zeroed session block. -/
def session_mgr_zero : session_info_t :=
  { session_id := 0, client_nonce := 0, lease_ms := 0,
    last_keepalive_us := 0, state := session_state_t.NONE }

/-- `session_mgr_open`: `new_id` models the nonzero value the
`esp_random` loop produced, `now_us` the `esp_timer_get_time` reading. -/
def session_mgr_open (now_us new_id client_nonce : Nat) : session_info_t :=
  { session_id := new_id, client_nonce := client_nonce,
    lease_ms := SESSION_DEFAULT_LEASE_MS, last_keepalive_us := now_us,
    state := session_state_t.LIVE }

/-- `session_mgr_keepalive`. -/
def session_mgr_keepalive (s : session_info_t) (now_us session_id : Nat) :
    esp_err_t × session_info_t :=
  if s.state = session_state_t.NONE then
    (ESP_ERR_INVALID_STATE, s)
  else if s.session_id ≠ session_id then
    (ESP_ERR_INVALID_ARG, s)
  else if s.state = session_state_t.STALE then
    (ESP_OK, { s with last_keepalive_us := now_us,
                      state := session_state_t.LIVE })
  else
    (ESP_OK, { s with last_keepalive_us := now_us })

/-- `session_mgr_close`. -/
def session_mgr_close (s : session_info_t) (session_id : Nat) :
    esp_err_t × session_info_t :=
  if s.state = session_state_t.NONE then
    (ESP_ERR_INVALID_STATE, s)
  else if s.session_id ≠ session_id then
    (ESP_ERR_INVALID_ARG, s)
  else
    (ESP_OK, session_mgr_zero)

/-- `session_mgr_is_valid`: state is LIVE and the id matches. -/
def session_mgr_is_valid (s : session_info_t) (session_id : Nat) : Bool :=
  s.state = session_state_t.LIVE ∧ s.session_id = session_id

/-- `session_mgr_is_live`. -/
def session_mgr_is_live (s : session_info_t) : Bool :=
  s.state = session_state_t.LIVE

/-- `session_mgr_check_expiry` evaluated at time `now_us`; returns whether
the session transitioned LIVE→STALE together with the new state. -/
def session_mgr_check_expiry (s : session_info_t) (now_us : Nat) :
    Bool × session_info_t :=
  if s.state ≠ session_state_t.LIVE then
    (false, s)
  else if now_us - s.last_keepalive_us >
      s.lease_ms * 1000 + SESSION_GRACE_PERIOD_MS * 1000 then
    (true, { s with state := session_state_t.STALE })
  else
    (false, s)

/-- `session_mgr_force_expire`. -/
def session_mgr_force_expire (s : session_info_t) : session_info_t :=
  if s.state ≠ session_state_t.NONE then session_mgr_zero else s

/-- One step of the session manager world (session block plus the current
`esp_timer` reading in microseconds).  API calls happen at the current
time; time advances in `tick` steps, each immediately followed by the
periodically scheduled `session_mgr_check_expiry` (the telemetry task
invokes it every 100 ms). -/
inductive SessionStep : session_info_t × Nat → session_info_t × Nat → Prop where
  | open_session (s : session_info_t) (now new_id nonce : Nat)
      (h : new_id ≠ 0) :
      SessionStep (s, now) (session_mgr_open now new_id nonce, now)
  | keepalive (s : session_info_t) (now id : Nat) :
      SessionStep (s, now) ((session_mgr_keepalive s now id).2, now)
  | close (s : session_info_t) (now id : Nat) :
      SessionStep (s, now) ((session_mgr_close s id).2, now)
  | force_expire (s : session_info_t) (now : Nat) :
      SessionStep (s, now) (session_mgr_force_expire s, now)
  | tick (s : session_info_t) (now delta : Nat) :
      SessionStep (s, now) ((session_mgr_check_expiry s (now + delta)).2, now + delta)

/-- Reachability of a session-manager world from the freshly initialized
manager at time 0. -/
inductive SessionReachable : session_info_t × Nat → Prop where
  | init : SessionReachable (session_mgr_zero, 0)
  | step {w w' : session_info_t × Nat} :
      SessionReachable w → SessionStep w w' → SessionReachable w'

/-- Freshness invariant maintained by every session-manager step: the
last-keepalive stamp never lies in the future, a LIVE session is within
lease + grace of the current time, and a STALE session is beyond it. -/
def session_inv (w : session_info_t × Nat) : Prop :=
  w.1.last_keepalive_us ≤ w.2 ∧
  (w.1.state = session_state_t.LIVE →
    w.2 - w.1.last_keepalive_us ≤
      w.1.lease_ms * 1000 + SESSION_GRACE_PERIOD_MS * 1000) ∧
  (w.1.state = session_state_t.STALE →
    w.2 - w.1.last_keepalive_us >
      w.1.lease_ms * 1000 + SESSION_GRACE_PERIOD_MS * 1000)

theorem session_inv_init : session_inv (session_mgr_zero, 0) := by
  refine ⟨Nat.le_refl 0, ?_, ?_⟩ <;> intro h <;> simp [session_mgr_zero] at h

theorem session_inv_step {w w' : session_info_t × Nat}
    (hinv : session_inv w) (hstep : SessionStep w w') : session_inv w' := by
  obtain ⟨hle, hlive, hstale⟩ := hinv
  simp only [session_inv] at *
  cases hstep with
  | open_session s now new_id nonce h =>
      refine ⟨Nat.le_refl now, fun _ => ?_, fun hst => ?_⟩
      · simp [session_mgr_open]
      · simp [session_mgr_open] at hst
  | keepalive s now id =>
      have hred : (session_mgr_keepalive s now id).2 =
          if s.state = session_state_t.NONE then s
          else if s.session_id ≠ id then s
          else if s.state = session_state_t.STALE then
            { s with last_keepalive_us := now, state := session_state_t.LIVE }
          else { s with last_keepalive_us := now } := by
        unfold session_mgr_keepalive
        split_ifs <;> rfl
      rw [hred]
      split_ifs with h1 h2 h3
      · exact ⟨hle, hlive, hstale⟩
      · exact ⟨hle, hlive, hstale⟩
      · refine ⟨Nat.le_refl now, fun _ => by simp, fun hst => ?_⟩
        simp at hst
      · refine ⟨Nat.le_refl now, fun _ => by simp, fun hst => ?_⟩
        simp at hst
        exact absurd hst h3
  | close s now id =>
      have hred : (session_mgr_close s id).2 =
          if s.state = session_state_t.NONE then s
          else if s.session_id ≠ id then s
          else session_mgr_zero := by
        unfold session_mgr_close
        split_ifs <;> rfl
      rw [hred]
      split_ifs with h1 h2
      · exact ⟨hle, hlive, hstale⟩
      · exact ⟨hle, hlive, hstale⟩
      · refine ⟨by simp [session_mgr_zero], fun hst => ?_, fun hst => ?_⟩ <;>
          simp [session_mgr_zero] at hst
  | force_expire s now =>
      unfold session_mgr_force_expire
      split_ifs with h1
      · refine ⟨by simp [session_mgr_zero], fun hst => ?_, fun hst => ?_⟩ <;>
          simp [session_mgr_zero] at hst
      · exact ⟨hle, hlive, hstale⟩
  | tick s now delta =>
      have hle2 : s.last_keepalive_us ≤ now := hle
      have hlive2 : s.state = session_state_t.LIVE →
          now - s.last_keepalive_us ≤
            s.lease_ms * 1000 + SESSION_GRACE_PERIOD_MS * 1000 := hlive
      have hstale2 : s.state = session_state_t.STALE →
          now - s.last_keepalive_us >
            s.lease_ms * 1000 + SESSION_GRACE_PERIOD_MS * 1000 := hstale
      clear hle hlive hstale
      have hred : (session_mgr_check_expiry s (now + delta)).2 =
          if s.state ≠ session_state_t.LIVE then s
          else if now + delta - s.last_keepalive_us >
              s.lease_ms * 1000 + SESSION_GRACE_PERIOD_MS * 1000 then
            { s with state := session_state_t.STALE }
          else s := by
        unfold session_mgr_check_expiry
        split_ifs <;> rfl
      rw [hred]
      split_ifs with h1 h2
      · refine ⟨by simp; omega, fun hl => absurd hl h1, fun hst => ?_⟩
        have := hstale2 hst
        simp
        omega
      · refine ⟨by simp; omega, fun hl => by simp at hl, fun hst => ?_⟩
        simp
        omega
      · push_neg at h1 h2
        refine ⟨by simp; omega, fun _ => by simp; omega, fun hst => ?_⟩
        rw [hst] at h1
        simp at h1

theorem session_reachable_inv {w : session_info_t × Nat}
    (h : SessionReachable w) : session_inv w := by
  induction h with
  | init => exact session_inv_init
  | step _ hstep ih => exact session_inv_step ih hstep

/-- Claim C7: in every reachable state of the session manager (with
`check_expiry` applied at every advance of the clock), `is_valid id`
returns true exactly when a session exists, its id matches, and the last
accepted keepalive (or open) lies within lease + grace milliseconds of
the current time. -/
theorem session_is_valid_iff_C7 (s : session_info_t) (now id : Nat)
    (hreach : SessionReachable (s, now)) :
    session_mgr_is_valid s id = true ↔
      (s.state ≠ session_state_t.NONE ∧ s.session_id = id ∧
       now - s.last_keepalive_us ≤
         s.lease_ms * 1000 + SESSION_GRACE_PERIOD_MS * 1000) := by
  obtain ⟨hle0, hlive0, hstale0⟩ := session_reachable_inv hreach
  have hlive : s.state = session_state_t.LIVE →
      now - s.last_keepalive_us ≤
        s.lease_ms * 1000 + SESSION_GRACE_PERIOD_MS * 1000 := hlive0
  have hstale : s.state = session_state_t.STALE →
      now - s.last_keepalive_us >
        s.lease_ms * 1000 + SESSION_GRACE_PERIOD_MS * 1000 := hstale0
  simp only [session_mgr_is_valid, decide_eq_true_eq]
  constructor
  · rintro ⟨hst, hid⟩
    exact ⟨by simp [hst], hid, hlive hst⟩
  · rintro ⟨hne, hid, hfresh⟩
    cases hst : s.state with
    | NONE => exact absurd hst hne
    | LIVE => exact ⟨rfl, hid⟩
    | STALE =>
        have := hstale hst
        omega

/-- Witness for C7: the state reached by opening a session (id 42,
nonce 7) at time 0. -/
theorem session_is_valid_iff_C7_witness :
    session_mgr_is_valid (session_mgr_open 0 42 7) 42 = true ↔
      ((session_mgr_open 0 42 7).state ≠ session_state_t.NONE ∧
       (session_mgr_open 0 42 7).session_id = 42 ∧
       0 - (session_mgr_open 0 42 7).last_keepalive_us ≤
         (session_mgr_open 0 42 7).lease_ms * 1000 +
           SESSION_GRACE_PERIOD_MS * 1000) :=
  session_is_valid_iff_C7 (session_mgr_open 0 42 7) 0 42
    (SessionReachable.step SessionReachable.init
      (SessionStep.open_session session_mgr_zero 0 42 7 (by norm_num)))

/-! ## Safety gate framework (src/firmware/components/safety_gate/safety_gate.c)

The PID process value is a `float` in the C record; the probe-error logic
only ever uses `(int16_t)(ctrl.data.pv * 10.0f)`, so the controller record
is embedded with that integer (`pv_x10 : Int`) directly. -/

inductive capability_level_t where
  | CAP_NOT_PRESENT
  | CAP_OPTIONAL
  | CAP_REQUIRED
deriving Repr, DecidableEq

open capability_level_t

def SUBSYS_PID1 : Nat := 0

def SUBSYS_PID2 : Nat := 1

def SUBSYS_PID3 : Nat := 2

def SUBSYS_DI_ESTOP : Nat := 3

def SUBSYS_DI_DOOR : Nat := 4

def SUBSYS_DI_LN2 : Nat := 5

def SUBSYS_DI_MOTOR : Nat := 6

def SUBSYS_MAX : Nat := 7

def GATE_ESTOP : Nat := 0

def GATE_DOOR_CLOSED : Nat := 1

def GATE_HMI_LIVE : Nat := 2

def GATE_PID1_ONLINE : Nat := 3

def GATE_PID2_ONLINE : Nat := 4

def GATE_PID3_ONLINE : Nat := 5

def GATE_PID1_NO_PROBE_ERR : Nat := 6

def GATE_PID2_NO_PROBE_ERR : Nat := 7

def GATE_PID3_NO_PROBE_ERR : Nat := 8

def GATE_RESERVED : Nat := 9

def GATE_MAX : Nat := 10

inductive gate_status_t where
  | GATE_STATUS_PASSING
  | GATE_STATUS_BLOCKING
  | GATE_STATUS_BYPASSED
  | GATE_STATUS_NA
deriving Repr, DecidableEq

open gate_status_t

def PROBE_ERROR_HIGH_THRESHOLD_X10 : Int := 5000

def PROBE_ERROR_LOW_THRESHOLD_X10 : Int := -3000

inductive pid_state_t where
  | PID_STATE_UNKNOWN
  | PID_STATE_ONLINE
  | PID_STATE_STALE
  | PID_STATE_OFFLINE
deriving Repr, DecidableEq

open pid_state_t

/-- The part of `pid_controller_t` the safety gates read: the poller state
and the process value in tenths of a degree (the value of
`(int16_t)(ctrl.data.pv * 10.0f)`). -/
structure pid_controller_t where
  state : pid_state_t
  pv_x10 : Int
deriving Repr, DecidableEq

/-! Digital-input helpers from machine_state.c (used by the interlock
byte the safety gate consults). -/

def DI_ESTOP : Nat := 1

def DI_DOOR_CLOSED : Nat := 2

def DI_LN2_PRESENT : Nat := 3

def DI_MOTOR_FAULT : Nat := 4

def INTERLOCK_BIT_ESTOP : Nat := 1

def INTERLOCK_BIT_DOOR_OPEN : Nat := 2

def INTERLOCK_BIT_LN2_ABSENT : Nat := 4

def INTERLOCK_BIT_MOTOR_FAULT : Nat := 8

def INTERLOCK_BIT_HMI_STALE : Nat := 16

/-- `check_estop_active`: DI1 is active-low. -/
def check_estop_active (di_bits : Nat) : Bool :=
  di_bits &&& (1 <<< (DI_ESTOP - 1)) = 0

/-- `check_door_open`: DI2 low means the door is open. -/
def check_door_open (di_bits : Nat) : Bool :=
  di_bits &&& (1 <<< (DI_DOOR_CLOSED - 1)) = 0

/-- `check_motor_fault`: the soft starter has no fault output; the C
function always returns false. -/
def check_motor_fault : Bool := false

/-- `check_ln2_present`: DI3 high means LN2 available. -/
def check_ln2_present (di_bits : Nat) : Bool :=
  di_bits &&& (1 <<< (DI_LN2_PRESENT - 1)) ≠ 0

/-- `machine_state_get_interlocks` (the motor-fault contribution is
commented out in the source). -/
def machine_state_get_interlocks (di_bits : Nat) (hmi_live : Bool) : Nat :=
  (if check_estop_active di_bits then INTERLOCK_BIT_ESTOP else 0) |||
  (if check_door_open di_bits then INTERLOCK_BIT_DOOR_OPEN else 0) |||
  (if ¬ check_ln2_present di_bits then INTERLOCK_BIT_LN2_ABSENT else 0) |||
  (if ¬ hmi_live then INTERLOCK_BIT_HMI_STALE else 0)

/-- The external observations the safety gates consult: the cached DI
byte, session liveness (`session_mgr_is_live`), and the controller
records returned by `pid_controller_get_by_addr` (`none` models a failed
lookup). -/
structure safety_env where
  di_bits : Nat
  hmi_live : Bool
  controllers : Nat → Option pid_controller_t

/-- The mutable safety-gate state: capability levels (`s_caps`) and the
gate enable bitmask (`s_gate_enable_mask`). -/
structure safety_cfg where
  caps : Nat → capability_level_t
  gate_enable_mask : Nat

/-- `safety_gate_pid_has_probe_error`. -/
def safety_gate_pid_has_probe_error (env : safety_env) (pid_id : Nat) : Bool :=
  if pid_id < 1 ∨ pid_id > 3 then
    false
  else
    match env.controllers pid_id with
    | none => false
    | some ctrl =>
      if ctrl.state ≠ PID_STATE_ONLINE ∧ ctrl.state ≠ PID_STATE_STALE then
        false
      else if ctrl.pv_x10 ≥ PROBE_ERROR_HIGH_THRESHOLD_X10 then
        true
      else if pid_id ≠ 1 ∧ ctrl.pv_x10 ≤ PROBE_ERROR_LOW_THRESHOLD_X10 then
        true
      else
        false

/-- Claim C4: for controller ids 1–3 the probe-error predicate holds
exactly when the controller record is readable, its state is online or
stale, and the process value is at or above 500.0 °C, or the controller is
not the liquid-coolant controller (id 1) and the value is at or below
−300.0 °C; in every other case (offline, unknown, unreadable) it is
false. -/
theorem probe_error_iff_C4 (env : safety_env) (pid_id : Nat)
    (h1 : 1 ≤ pid_id) (h3 : pid_id ≤ 3) :
    safety_gate_pid_has_probe_error env pid_id = true ↔
      ∃ ctrl, env.controllers pid_id = some ctrl ∧
        (ctrl.state = PID_STATE_ONLINE ∨ ctrl.state = PID_STATE_STALE) ∧
        (ctrl.pv_x10 ≥ 5000 ∨ (pid_id ≠ 1 ∧ ctrl.pv_x10 ≤ -3000)) := by
  unfold safety_gate_pid_has_probe_error
  rw [if_neg (by omega)]
  cases hctrl : env.controllers pid_id with
  | none =>
      simp
  | some ctrl =>
      simp only [PROBE_ERROR_HIGH_THRESHOLD_X10, PROBE_ERROR_LOW_THRESHOLD_X10]
      split_ifs with hstate hhigh hlow
      · simp only [false_iff]
        rintro ⟨c, hc, hon, _⟩
        injection hc with hceq
        subst hceq
        rcases hon with hon | hon <;> simp [hon] at hstate
      · simp only [true_iff]
        exact ⟨ctrl, rfl, by tauto, Or.inl hhigh⟩
      · simp only [true_iff]
        exact ⟨ctrl, rfl, by tauto, Or.inr hlow⟩
      · simp only [false_iff]
        rintro ⟨c, hc, hon, hrange⟩
        injection hc with hceq
        subst hceq
        rcases hrange with hr | hr
        · exact hhigh hr
        · exact hlow hr

/-- Witness for C4: controller 2 online with process value 600.0 °C has a
probe error. -/
theorem probe_error_iff_C4_witness :
    safety_gate_pid_has_probe_error
        ⟨0x07, true, fun i =>
          if i = 2 then some ⟨PID_STATE_ONLINE, 6000⟩ else none⟩ 2 = true ↔
      ∃ ctrl,
        (fun i => if i = 2 then some (⟨PID_STATE_ONLINE, 6000⟩ : pid_controller_t)
          else none) 2 = some ctrl ∧
        (ctrl.state = PID_STATE_ONLINE ∨ ctrl.state = PID_STATE_STALE) ∧
        (ctrl.pv_x10 ≥ 5000 ∨ ((2 : Nat) ≠ 1 ∧ ctrl.pv_x10 ≤ -3000)) :=
  probe_error_iff_C4
    ⟨0x07, true, fun i => if i = 2 then some ⟨PID_STATE_ONLINE, 6000⟩ else none⟩
    2 (by norm_num) (by norm_num)

/-- Online condition a `GATE_PIDn_ONLINE` gate checks: record readable and
state online or stale. -/
def pid_online_cond (env : safety_env) (i : Nat) : Bool :=
  match env.controllers i with
  | none => false
  | some ctrl => ctrl.state = PID_STATE_ONLINE ∨ ctrl.state = PID_STATE_STALE

/-- `check_gate_condition`. -/
def check_gate_condition (env : safety_env) (gate : Nat) : Bool :=
  if gate = GATE_ESTOP then
    machine_state_get_interlocks env.di_bits env.hmi_live &&&
      INTERLOCK_BIT_ESTOP = 0
  else if gate = GATE_DOOR_CLOSED then
    machine_state_get_interlocks env.di_bits env.hmi_live &&&
      INTERLOCK_BIT_DOOR_OPEN = 0
  else if gate = GATE_HMI_LIVE then
    env.hmi_live
  else if gate = GATE_PID1_ONLINE then
    pid_online_cond env 1
  else if gate = GATE_PID2_ONLINE then
    pid_online_cond env 2
  else if gate = GATE_PID3_ONLINE then
    pid_online_cond env 3
  else if gate = GATE_PID1_NO_PROBE_ERR then
    ! safety_gate_pid_has_probe_error env 1
  else if gate = GATE_PID2_NO_PROBE_ERR then
    ! safety_gate_pid_has_probe_error env 2
  else if gate = GATE_PID3_NO_PROBE_ERR then
    ! safety_gate_pid_has_probe_error env 3
  else
    true

/-- `safety_gate_is_enabled`. -/
def safety_gate_is_enabled (cfg : safety_cfg) (gate : Nat) : Bool :=
  if gate ≥ GATE_MAX then true
  else cfg.gate_enable_mask &&& (1 <<< gate) ≠ 0

/-- The `related_subsys` computed by the switch in `safety_gate_check`
(`none` models `SUBSYS_MAX`, i.e. no related subsystem). -/
def gate_related_subsys (gate : Nat) : Option Nat :=
  if gate = GATE_PID1_ONLINE ∨ gate = GATE_PID1_NO_PROBE_ERR then
    some SUBSYS_PID1
  else if gate = GATE_PID2_ONLINE ∨ gate = GATE_PID2_NO_PROBE_ERR then
    some SUBSYS_PID2
  else if gate = GATE_PID3_ONLINE ∨ gate = GATE_PID3_NO_PROBE_ERR then
    some SUBSYS_PID3
  else if gate = GATE_DOOR_CLOSED then
    some SUBSYS_DI_DOOR
  else
    none

/-- The `related_subsys < SUBSYS_MAX && s_caps[related_subsys] ==
CAP_NOT_PRESENT` test of `safety_gate_check`. -/
def gate_subsys_not_present (cfg : safety_cfg) (gate : Nat) : Bool :=
  match gate_related_subsys gate with
  | some su => cfg.caps su = CAP_NOT_PRESENT
  | none => false

/-- `safety_gate_check`. -/
def safety_gate_check (cfg : safety_cfg) (env : safety_env) (gate : Nat) :
    gate_status_t :=
  if gate ≥ GATE_MAX then
    GATE_STATUS_NA
  else if gate ≠ GATE_ESTOP ∧ ¬ safety_gate_is_enabled cfg gate then
    GATE_STATUS_BYPASSED
  else if gate_subsys_not_present cfg gate then
    GATE_STATUS_NA
  else if check_gate_condition env gate then
    GATE_STATUS_PASSING
  else
    GATE_STATUS_BLOCKING

/-- `safety_gate_can_start_run` with the three-iteration PID loop
unrolled (each iteration checks the online gate then the probe-error gate
and is skipped unless the subsystem capability is `CAP_REQUIRED`).
Returns the C pair (allowed, `*out_blocking_gate` with −1 for allowed). -/
def safety_gate_can_start_run (cfg : safety_cfg) (env : safety_env) :
    Bool × Int :=
  if safety_gate_check cfg env GATE_ESTOP = GATE_STATUS_BLOCKING then
    (false, 0)
  else if cfg.caps SUBSYS_DI_DOOR ≠ CAP_NOT_PRESENT ∧
      safety_gate_check cfg env GATE_DOOR_CLOSED = GATE_STATUS_BLOCKING then
    (false, 1)
  else if safety_gate_check cfg env GATE_HMI_LIVE = GATE_STATUS_BLOCKING then
    (false, 2)
  else if cfg.caps SUBSYS_PID1 = CAP_REQUIRED ∧
      safety_gate_check cfg env GATE_PID1_ONLINE = GATE_STATUS_BLOCKING then
    (false, 3)
  else if cfg.caps SUBSYS_PID1 = CAP_REQUIRED ∧
      safety_gate_check cfg env GATE_PID1_NO_PROBE_ERR = GATE_STATUS_BLOCKING then
    (false, 6)
  else if cfg.caps SUBSYS_PID2 = CAP_REQUIRED ∧
      safety_gate_check cfg env GATE_PID2_ONLINE = GATE_STATUS_BLOCKING then
    (false, 4)
  else if cfg.caps SUBSYS_PID2 = CAP_REQUIRED ∧
      safety_gate_check cfg env GATE_PID2_NO_PROBE_ERR = GATE_STATUS_BLOCKING then
    (false, 7)
  else if cfg.caps SUBSYS_PID3 = CAP_REQUIRED ∧
      safety_gate_check cfg env GATE_PID3_ONLINE = GATE_STATUS_BLOCKING then
    (false, 5)
  else if cfg.caps SUBSYS_PID3 = CAP_REQUIRED ∧
      safety_gate_check cfg env GATE_PID3_NO_PROBE_ERR = GATE_STATUS_BLOCKING then
    (false, 8)
  else
    (true, -1)

/-! Specification-side description of the start-run decision (C3), stated
from the claim's words: iterate the gates in priority order (E-Stop; door
when the door subsystem is present; HMI; for each REQUIRED controller its
online gate then its probe gate) and return the first blocking gate,
where a gate blocks only if its condition fails, it is enabled, and its
related subsystem is not NOT_PRESENT — except that the E-Stop gate is
always checked (never bypassed, no capability applies). -/

/-- A gate is applicable when its related subsystem (if any) is present. -/
def spec_gate_applicable (cfg : safety_cfg) (gate : Nat) : Bool :=
  match gate_related_subsys gate with
  | some su => cfg.caps su ≠ CAP_NOT_PRESENT
  | none => true

/-- The claim's notion of a blocking gate. -/
def spec_gate_blocks (cfg : safety_cfg) (env : safety_env) (gate : Nat) :
    Bool :=
  if gate = GATE_ESTOP then
    ! check_gate_condition env gate
  else
    (! check_gate_condition env gate) &&
    safety_gate_is_enabled cfg gate &&
    spec_gate_applicable cfg gate

/-- The claim's gate iteration order. -/
def spec_gate_sequence (cfg : safety_cfg) : List Nat :=
  [GATE_ESTOP] ++
  (if cfg.caps SUBSYS_DI_DOOR ≠ CAP_NOT_PRESENT then [GATE_DOOR_CLOSED]
   else []) ++
  [GATE_HMI_LIVE] ++
  (if cfg.caps SUBSYS_PID1 = CAP_REQUIRED then
    [GATE_PID1_ONLINE, GATE_PID1_NO_PROBE_ERR] else []) ++
  (if cfg.caps SUBSYS_PID2 = CAP_REQUIRED then
    [GATE_PID2_ONLINE, GATE_PID2_NO_PROBE_ERR] else []) ++
  (if cfg.caps SUBSYS_PID3 = CAP_REQUIRED then
    [GATE_PID3_ONLINE, GATE_PID3_NO_PROBE_ERR] else [])

/-- First blocking gate in the claim's order (`none` = start allowed). -/
def spec_start_run_decision (cfg : safety_cfg) (env : safety_env) :
    Option Nat :=
  (spec_gate_sequence cfg).find? (spec_gate_blocks cfg env)

/-- Rendering of the spec decision in the C function's result format. -/
def spec_decision_result (d : Option Nat) : Bool × Int :=
  match d with
  | some g => (false, (g : Int))
  | none => (true, -1)

theorem find?_cons_ite {α : Type} (p : α → Bool) (a : α) (l : List α) :
    (a :: l).find? p = if p a = true then some a else l.find? p := by
  rw [List.find?_cons]
  cases h : p a <;> simp

/-- Bridge for the E-Stop gate: the code's check is BLOCKING exactly when
the claim's blocking notion holds (bypass and capability do not apply). -/
theorem spec_blocks_estop_iff (cfg : safety_cfg) (env : safety_env) :
    (safety_gate_check cfg env GATE_ESTOP = GATE_STATUS_BLOCKING) ↔
      spec_gate_blocks cfg env GATE_ESTOP = true := by
  unfold safety_gate_check spec_gate_blocks gate_subsys_not_present
    gate_related_subsys
  cases hcond : check_gate_condition env GATE_ESTOP <;>
    simp [GATE_ESTOP, GATE_DOOR_CLOSED, GATE_PID1_ONLINE, GATE_PID2_ONLINE,
      GATE_PID3_ONLINE, GATE_PID1_NO_PROBE_ERR, GATE_PID2_NO_PROBE_ERR,
      GATE_PID3_NO_PROBE_ERR, GATE_MAX, hcond]

/-- Bridge for every non-E-Stop gate whose related subsystem (if any) is
present: BLOCKING coincides with the claim's blocking notion. -/
theorem spec_blocks_iff (cfg : safety_cfg) (env : safety_env) (gate : Nat)
    (hlt : gate < GATE_MAX) (hne : gate ≠ GATE_ESTOP)
    (hcap : spec_gate_applicable cfg gate = true) :
    (safety_gate_check cfg env gate = GATE_STATUS_BLOCKING) ↔
      spec_gate_blocks cfg env gate = true := by
  unfold safety_gate_check spec_gate_blocks
  rw [if_neg (by omega : ¬ gate ≥ GATE_MAX), if_neg hne]
  have hnp : gate_subsys_not_present cfg gate = false := by
    unfold gate_subsys_not_present
    unfold spec_gate_applicable at hcap
    cases hrel : gate_related_subsys gate with
    | none => rfl
    | some su =>
        rw [hrel] at hcap
        simpa using hcap
  cases henab : safety_gate_is_enabled cfg gate
  · rw [if_pos ⟨hne, by simp [henab]⟩]
    simp [henab]
  · rw [if_neg (by simp [henab])]
    rw [if_neg (by simp [hnp])]
    cases hcond : check_gate_condition env gate
    · simp [hcond, henab, hcap]
    · simp [hcond]

/-- Unconditional form of the bridge: for a non-E-Stop gate, the code's
check is BLOCKING exactly when the claim's blocking notion holds and the
gate's related subsystem is present. -/
theorem spec_blocks_iff2 (cfg : safety_cfg) (env : safety_env) (gate : Nat)
    (hlt : gate < GATE_MAX) (hne : gate ≠ GATE_ESTOP) :
    (safety_gate_check cfg env gate = GATE_STATUS_BLOCKING) ↔
      (spec_gate_blocks cfg env gate = true ∧
       spec_gate_applicable cfg gate = true) := by
  rcases Bool.eq_false_or_eq_true (spec_gate_applicable cfg gate) with hcap | hcap
  · simp only [hcap, and_true]
    exact spec_blocks_iff cfg env gate hlt hne hcap
  · simp only [hcap, Bool.false_eq_true, and_false, iff_false]
    have hnp : gate_subsys_not_present cfg gate = true := by
      unfold gate_subsys_not_present
      unfold spec_gate_applicable at hcap
      cases hrel : gate_related_subsys gate with
      | none => rw [hrel] at hcap; simp at hcap
      | some su => rw [hrel] at hcap; simpa using hcap
    unfold safety_gate_check
    rw [if_neg (by omega : ¬ gate ≥ GATE_MAX)]
    split_ifs with hbyp
    · simp
    · simp

/-- Claim C3: the start-run decision of the code equals the first
blocking gate (or "allowed") obtained by iterating the claim's gate
sequence with the claim's blocking notion. -/
theorem can_start_run_C3 (cfg : safety_cfg) (env : safety_env) :
    safety_gate_can_start_run cfg env =
      spec_decision_result (spec_start_run_decision cfg env) := by
  have hb0 := spec_blocks_estop_iff cfg env
  have hbD := spec_blocks_iff2 cfg env GATE_DOOR_CLOSED (by decide) (by decide)
  have hbH := spec_blocks_iff2 cfg env GATE_HMI_LIVE (by decide) (by decide)
  have hb3 := spec_blocks_iff2 cfg env GATE_PID1_ONLINE (by decide) (by decide)
  have hb4 := spec_blocks_iff2 cfg env GATE_PID2_ONLINE (by decide) (by decide)
  have hb5 := spec_blocks_iff2 cfg env GATE_PID3_ONLINE (by decide) (by decide)
  have hb6 := spec_blocks_iff2 cfg env GATE_PID1_NO_PROBE_ERR (by decide) (by decide)
  have hb7 := spec_blocks_iff2 cfg env GATE_PID2_NO_PROBE_ERR (by decide) (by decide)
  have hb8 := spec_blocks_iff2 cfg env GATE_PID3_NO_PROBE_ERR (by decide) (by decide)
  have haD : spec_gate_applicable cfg GATE_DOOR_CLOSED =
      decide (cfg.caps SUBSYS_DI_DOOR ≠ CAP_NOT_PRESENT) := rfl
  have haH : spec_gate_applicable cfg GATE_HMI_LIVE = true := rfl
  have ha3 : spec_gate_applicable cfg GATE_PID1_ONLINE =
      decide (cfg.caps SUBSYS_PID1 ≠ CAP_NOT_PRESENT) := rfl
  have ha4 : spec_gate_applicable cfg GATE_PID2_ONLINE =
      decide (cfg.caps SUBSYS_PID2 ≠ CAP_NOT_PRESENT) := rfl
  have ha5 : spec_gate_applicable cfg GATE_PID3_ONLINE =
      decide (cfg.caps SUBSYS_PID3 ≠ CAP_NOT_PRESENT) := rfl
  have ha6 : spec_gate_applicable cfg GATE_PID1_NO_PROBE_ERR =
      decide (cfg.caps SUBSYS_PID1 ≠ CAP_NOT_PRESENT) := rfl
  have ha7 : spec_gate_applicable cfg GATE_PID2_NO_PROBE_ERR =
      decide (cfg.caps SUBSYS_PID2 ≠ CAP_NOT_PRESENT) := rfl
  have ha8 : spec_gate_applicable cfg GATE_PID3_NO_PROBE_ERR =
      decide (cfg.caps SUBSYS_PID3 ≠ CAP_NOT_PRESENT) := rfl
  have hs0 : spec_decision_result (some GATE_ESTOP) = (false, 0) := rfl
  have hs1 : spec_decision_result (some GATE_DOOR_CLOSED) = (false, 1) := rfl
  have hs2 : spec_decision_result (some GATE_HMI_LIVE) = (false, 2) := rfl
  have hs3 : spec_decision_result (some GATE_PID1_ONLINE) = (false, 3) := rfl
  have hs4 : spec_decision_result (some GATE_PID2_ONLINE) = (false, 4) := rfl
  have hs5 : spec_decision_result (some GATE_PID3_ONLINE) = (false, 5) := rfl
  have hs6 : spec_decision_result (some GATE_PID1_NO_PROBE_ERR) = (false, 6) := rfl
  have hs7 : spec_decision_result (some GATE_PID2_NO_PROBE_ERR) = (false, 7) := rfl
  have hs8 : spec_decision_result (some GATE_PID3_NO_PROBE_ERR) = (false, 8) := rfl
  have hsn : spec_decision_result none = (true, -1) := rfl
  unfold safety_gate_can_start_run spec_start_run_decision spec_gate_sequence
  by_cases hdoor : cfg.caps SUBSYS_DI_DOOR = CAP_NOT_PRESENT <;>
  by_cases hp1 : cfg.caps SUBSYS_PID1 = CAP_REQUIRED <;>
  by_cases hp2 : cfg.caps SUBSYS_PID2 = CAP_REQUIRED <;>
  by_cases hp3 : cfg.caps SUBSYS_PID3 = CAP_REQUIRED <;>
  simp [hb0, hbD, hbH, hb3, hb4, hb5, hb6, hb7, hb8,
    haD, haH, ha3, ha4, ha5, ha6, ha7, ha8,
    hdoor, hp1, hp2, hp3, hs0, hs1, hs2, hs3, hs4, hs5, hs6, hs7, hs8, hsn,
    find?_cons_ite, apply_ite spec_decision_result]

/-! ## Machine state machine (src/firmware/components/machine_state/machine_state.c)

The machine model composes the relay-driver cache at the level the state
machine uses it; hardware register writes are taken as succeeding here
(the failing-write behaviour of the driver is covered by the relay-driver
theorems).  Time-derived quantities (state duration, run elapsed time,
chamber temperature reading) enter each tick as an observation record,
mirroring the values the C tick computes from `esp_timer_get_time` and
`pid_controller_get_by_addr`. -/

inductive machine_state_t where
  | MACHINE_STATE_IDLE
  | MACHINE_STATE_PRECOOL
  | MACHINE_STATE_RUNNING
  | MACHINE_STATE_STOPPING
  | MACHINE_STATE_E_STOP
  | MACHINE_STATE_FAULT
  | MACHINE_STATE_SERVICE
deriving Repr, DecidableEq

open machine_state_t

inductive run_mode_t where
  | RUN_MODE_NORMAL
  | RUN_MODE_DRY_RUN
  | RUN_MODE_PRECOOL_ONLY
deriving Repr, DecidableEq

open run_mode_t

inductive stop_mode_t where
  | STOP_MODE_NORMAL
  | STOP_MODE_ABORT
deriving Repr, DecidableEq

open stop_mode_t

def RO_MAIN_CONTACTOR : Nat := 1

def RO_HEATER_1 : Nat := 2

def RO_HEATER_2 : Nat := 3

def RO_LN2_VALVE : Nat := 4

def RO_DOOR_LOCK : Nat := 5

def RO_CHAMBER_LIGHT : Nat := 6

/-- Modelled from the spec: `RO_MOTOR_START` is used by `machine_state.c`
but its definition is not among the sources; the specification fixes only
that motor-start is a relay role distinct from the six channels named in
`machine_state.h`, so it is taken to be the next channel, 7. -/
def RO_MOTOR_START : Nat := 7

def PRECOOL_TARGET_TEMP_X10 : Int := -500

def PRECOOL_TIMEOUT_MS : Nat := 300000

def PRECOOL_TEMP_TOLERANCE_X10 : Int := 50

def STOPPING_SOAK_TIME_MS : Nat := 30000

/-- Machine-state block (`s_state`, the relay cache it drives, and the
run parameters; timestamps are carried by the tick observations). -/
structure machine_t where
  st : machine_state_t
  relays : Nat
  run_mode : run_mode_t
  target_temp_x10 : Int
  run_duration_ms : Nat
deriving Repr, DecidableEq

/-- One `relay_ctrl_set` call as the machine task issues it (hardware
write succeeding). -/
def mrelay_set (r idx state : Nat) : Nat :=
  (relay_ctrl_set ⟨true, r⟩ true idx state).2.1.relay_state

/-- `set_outputs_safe`: motor off first, contactor second, then heaters,
LN2 valve and door lock (the chamber light is left as-is). -/
def set_outputs_safe (r : Nat) : Nat :=
  mrelay_set (mrelay_set (mrelay_set (mrelay_set (mrelay_set (mrelay_set r
    RO_MOTOR_START RELAY_STATE_OFF)
    RO_MAIN_CONTACTOR RELAY_STATE_OFF)
    RO_HEATER_1 RELAY_STATE_OFF)
    RO_HEATER_2 RELAY_STATE_OFF)
    RO_LN2_VALVE RELAY_STATE_OFF)
    RO_DOOR_LOCK RELAY_STATE_OFF

/-- Entry actions of `transition_to` on the relay cache. -/
def machine_entry_relays (new_state : machine_state_t) (r : Nat) : Nat :=
  match new_state with
  | MACHINE_STATE_IDLE => set_outputs_safe r
  | MACHINE_STATE_PRECOOL =>
      mrelay_set (mrelay_set (mrelay_set (mrelay_set (mrelay_set r
        RO_DOOR_LOCK RELAY_STATE_ON)
        RO_LN2_VALVE RELAY_STATE_ON)
        RO_HEATER_1 RELAY_STATE_ON)
        RO_HEATER_2 RELAY_STATE_ON)
        RO_MAIN_CONTACTOR RELAY_STATE_ON
  | MACHINE_STATE_RUNNING => mrelay_set r RO_MOTOR_START RELAY_STATE_ON
  | MACHINE_STATE_STOPPING =>
      mrelay_set (mrelay_set (mrelay_set (mrelay_set r
        RO_MOTOR_START RELAY_STATE_OFF)
        RO_HEATER_1 RELAY_STATE_OFF)
        RO_HEATER_2 RELAY_STATE_OFF)
        RO_LN2_VALVE RELAY_STATE_OFF
  | MACHINE_STATE_E_STOP => set_outputs_safe r
  | MACHINE_STATE_FAULT => set_outputs_safe r
  | MACHINE_STATE_SERVICE => r

/-- `transition_to` (no-op when the state is unchanged, otherwise runs
the entry actions for the new state). -/
def transition_to (m : machine_t) (new_state : machine_state_t) : machine_t :=
  if m.st = new_state then m
  else { m with st := new_state,
                relays := machine_entry_relays new_state m.relays }

/-- Observations one tick of the state task makes: the DI byte just read,
session liveness, the chamber-temperature reading (`none` when controller
1 is unreadable or not online), and the elapsed times the C code derives
from `esp_timer_get_time`. -/
structure tick_obs where
  di_bits : Nat
  hmi_live : Bool
  chamber_temp_x10 : Option Int
  state_duration_ms : Nat
  run_elapsed_ms : Nat

/-- E-Stop check at the top of the tick. -/
def machine_tick_estop (m : machine_t) (o : tick_obs) : machine_t :=
  if check_estop_active o.di_bits ∧ m.st ≠ MACHINE_STATE_E_STOP then
    transition_to m MACHINE_STATE_E_STOP
  else m

/-- Motor-fault check of the tick (`check_motor_fault` is always false in
the source, so this never fires). -/
def machine_tick_motor (m : machine_t) : machine_t :=
  if check_motor_fault = true ∧
      m.st ≠ MACHINE_STATE_E_STOP ∧ m.st ≠ MACHINE_STATE_FAULT ∧
      m.st ≠ MACHINE_STATE_IDLE ∧ m.st ≠ MACHINE_STATE_SERVICE then
    transition_to m MACHINE_STATE_FAULT
  else m

/-- Door-interlock check of the tick. -/
def machine_tick_door (m : machine_t) (o : tick_obs) : machine_t :=
  if check_door_open o.di_bits ∧
      (m.st = MACHINE_STATE_RUNNING ∨ m.st = MACHINE_STATE_PRECOOL) then
    transition_to m MACHINE_STATE_FAULT
  else m

/-- Where a completed precool goes: STOPPING for precool-only runs,
RUNNING otherwise. -/
def precool_next (m : machine_t) : machine_t :=
  if m.run_mode = RUN_MODE_PRECOOL_ONLY then
    transition_to m MACHINE_STATE_STOPPING
  else
    transition_to m MACHINE_STATE_RUNNING

/-- State-specific logic of the tick. -/
def machine_tick_logic (m : machine_t) (o : tick_obs) : machine_t :=
  match m.st with
  | MACHINE_STATE_PRECOOL =>
      match o.chamber_temp_x10 with
      | some t =>
          if (if t - m.target_temp_x10 < 0 then -(t - m.target_temp_x10)
              else t - m.target_temp_x10) ≤ PRECOOL_TEMP_TOLERANCE_X10 then
            precool_next m
          else if o.state_duration_ms > PRECOOL_TIMEOUT_MS then
            precool_next m
          else m
      | none =>
          if o.state_duration_ms > PRECOOL_TIMEOUT_MS then precool_next m
          else m
  | MACHINE_STATE_RUNNING =>
      if m.run_duration_ms > 0 ∧ o.run_elapsed_ms ≥ m.run_duration_ms then
        transition_to m MACHINE_STATE_STOPPING
      else if ¬ o.hmi_live then
        transition_to m MACHINE_STATE_STOPPING
      else m
  | MACHINE_STATE_STOPPING =>
      if o.state_duration_ms > STOPPING_SOAK_TIME_MS then
        transition_to m MACHINE_STATE_IDLE
      else m
  | _ => m

/-- One iteration of `state_task`. -/
def machine_tick (m : machine_t) (o : tick_obs) : machine_t :=
  machine_tick_logic (machine_tick_door (machine_tick_motor
    (machine_tick_estop m o)) o) o

/-- `machine_state_start_run`.  `session_valid` is the
`session_mgr_is_valid` outcome, `gates_allow` the
`safety_gate_can_start_run` verdict consulted via
`machine_state_start_allowed`. -/
def machine_state_start_run (m : machine_t) (session_valid gates_allow : Bool)
    (mode : run_mode_t) (target_temp_x10 : Int) (run_duration_ms : Nat) :
    esp_err_t × machine_t :=
  if ¬ session_valid then
    (ESP_ERR_INVALID_ARG, m)
  else if m.st ≠ MACHINE_STATE_IDLE then
    (ESP_ERR_INVALID_STATE, m)
  else if ¬ gates_allow then
    (ESP_ERR_NOT_ALLOWED, m)
  else
    (ESP_OK, transition_to
      { m with run_mode := mode,
               target_temp_x10 :=
                 if target_temp_x10 ≠ 0 then target_temp_x10
                 else PRECOOL_TARGET_TEMP_X10,
               run_duration_ms := run_duration_ms }
      MACHINE_STATE_PRECOOL)

/-- `machine_state_stop_run`. -/
def machine_state_stop_run (m : machine_t) (session_valid : Bool)
    (mode : stop_mode_t) : esp_err_t × machine_t :=
  if ¬ session_valid then
    (ESP_ERR_INVALID_ARG, m)
  else if m.st ≠ MACHINE_STATE_PRECOOL ∧ m.st ≠ MACHINE_STATE_RUNNING then
    (ESP_ERR_INVALID_STATE, m)
  else if mode = STOP_MODE_ABORT then
    (ESP_OK, transition_to { m with relays := set_outputs_safe m.relays }
      MACHINE_STATE_IDLE)
  else
    (ESP_OK, transition_to m MACHINE_STATE_STOPPING)

/-- `machine_state_enter_service`. -/
def machine_state_enter_service (m : machine_t) (session_valid : Bool) :
    esp_err_t × machine_t :=
  if ¬ session_valid then
    (ESP_ERR_INVALID_ARG, m)
  else if m.st ≠ MACHINE_STATE_IDLE then
    (ESP_ERR_INVALID_STATE, m)
  else
    (ESP_OK, transition_to m MACHINE_STATE_SERVICE)

/-- `machine_state_exit_service` (turns all relays off via
`relay_ctrl_all_off` before transitioning). -/
def machine_state_exit_service (m : machine_t) (session_valid : Bool) :
    esp_err_t × machine_t :=
  if ¬ session_valid then
    (ESP_ERR_INVALID_ARG, m)
  else if m.st ≠ MACHINE_STATE_SERVICE then
    (ESP_ERR_INVALID_STATE, m)
  else
    (ESP_OK, transition_to { m with relays := 0x00 } MACHINE_STATE_IDLE)

/-- `machine_state_clear_estop` (requires the E-Stop input released). -/
def machine_state_clear_estop (m : machine_t) (session_valid : Bool)
    (di_bits : Nat) : esp_err_t × machine_t :=
  if ¬ session_valid then
    (ESP_ERR_INVALID_ARG, m)
  else if m.st ≠ MACHINE_STATE_E_STOP then
    (ESP_ERR_INVALID_STATE, m)
  else if check_estop_active di_bits then
    (ESP_ERR_INVALID_STATE, m)
  else
    (ESP_OK, transition_to m MACHINE_STATE_IDLE)

/-- `machine_state_clear_fault` (`check_motor_fault` is always false). -/
def machine_state_clear_fault (m : machine_t) (session_valid : Bool) :
    esp_err_t × machine_t :=
  if ¬ session_valid then
    (ESP_ERR_INVALID_ARG, m)
  else if m.st ≠ MACHINE_STATE_FAULT then
    (ESP_ERR_INVALID_STATE, m)
  else if check_motor_fault = true then
    (ESP_ERR_INVALID_STATE, m)
  else
    (ESP_OK, transition_to m MACHINE_STATE_IDLE)

/-- `machine_state_force_safe`. -/
def machine_state_force_safe (m : machine_t) : machine_t :=
  transition_to { m with relays := set_outputs_safe m.relays }
    MACHINE_STATE_FAULT

/-- One step of the machine world: a state-task tick, a command-level
entry point of machine_state.c, or one of the relay commands
(`CMD_SET_RELAY`/`CMD_SET_RELAY_MASK`), which the BLE dispatcher accepts
in any machine state after validating index/state/mask. -/
inductive MachineStep : machine_t → machine_t → Prop where
  | tick (m : machine_t) (o : tick_obs) : MachineStep m (machine_tick m o)
  | start_run (m : machine_t) (sv ga : Bool) (mode : run_mode_t)
      (target : Int) (dur : Nat) :
      MachineStep m (machine_state_start_run m sv ga mode target dur).2
  | stop_run (m : machine_t) (sv : Bool) (mode : stop_mode_t) :
      MachineStep m (machine_state_stop_run m sv mode).2
  | enter_service (m : machine_t) (sv : Bool) :
      MachineStep m (machine_state_enter_service m sv).2
  | exit_service (m : machine_t) (sv : Bool) :
      MachineStep m (machine_state_exit_service m sv).2
  | clear_estop (m : machine_t) (sv : Bool) (di_bits : Nat) :
      MachineStep m (machine_state_clear_estop m sv di_bits).2
  | clear_fault (m : machine_t) (sv : Bool) :
      MachineStep m (machine_state_clear_fault m sv).2
  | force_safe (m : machine_t) : MachineStep m (machine_state_force_safe m)
  | cmd_set_relay (m : machine_t) (idx state : Nat)
      (h1 : 1 ≤ idx) (h2 : idx ≤ 8) (h3 : state ≤ 2) :
      MachineStep m { m with relays := mrelay_set m.relays idx state }
  | cmd_set_relay_mask (m : machine_t) (mask values : Nat) (h : mask ≠ 0) :
      MachineStep m { m with relays :=
        (relay_ctrl_set_mask ⟨true, m.relays⟩ true mask values).2.1.relay_state }

/-- `machine_state_init` outcome: IDLE with all relays off
(`relay_ctrl_init` leaves the cache at 0x00). -/
def machine_init : machine_t :=
  { st := MACHINE_STATE_IDLE, relays := 0x00,
    run_mode := RUN_MODE_NORMAL, target_temp_x10 := 0, run_duration_ms := 0 }

inductive MachineReachable : machine_t → Prop where
  | init : MachineReachable machine_init
  | step {m m' : machine_t} :
      MachineReachable m → MachineStep m m' → MachineReachable m'

/-- The relay bits `set_outputs_safe` clears: main contactor, both
heaters, LN2 valve, door lock (channels 1–5) and motor start (channel 7),
i.e. mask 0x5F.  The chamber-light bit (channel 6) and channel 8 are not
part of it. -/
def SAFE_CLEARED_MASK : Nat := 0x5F

theorem set_outputs_safe_masked (r : Nat) :
    set_outputs_safe r &&& SAFE_CLEARED_MASK = 0 := by
  show ((((((r &&& 191) &&& 254) &&& 253) &&& 251) &&& 247) &&& 239) &&& 95 = 0
  simp only [Nat.and_assoc]
  rw [(by decide :
    (191 : Nat) &&& (254 &&& (253 &&& (251 &&& (247 &&& (239 &&& 95))))) = 0)]
  simp

theorem entry_relays_safe (s : machine_state_t) (r : Nat)
    (hs : s = MACHINE_STATE_IDLE ∨ s = MACHINE_STATE_E_STOP ∨
          s = MACHINE_STATE_FAULT) :
    machine_entry_relays s r &&& SAFE_CLEARED_MASK = 0 := by
  rcases hs with h | h | h <;> subst h <;> exact set_outputs_safe_masked r

theorem transition_to_changed (m : machine_t) (s : machine_state_t)
    (h : m.st ≠ s) :
    (transition_to m s).st = s ∧
    (transition_to m s).relays = machine_entry_relays s m.relays := by
  unfold transition_to
  rw [if_neg h]
  exact ⟨rfl, rfl⟩

/-- A machine state that was produced by an actual (state-changing)
`transition_to`, so its entry action ran. -/
def entered (m' : machine_t) : Prop :=
  ∃ x s, m' = transition_to x s ∧ x.st ≠ s

/-- Result shape of a tick stage or command: unchanged, or freshly
entered via `transition_to`. -/
def step_shape (m m' : machine_t) : Prop := m' = m ∨ entered m'

theorem shape_comp {m m1 m2 : machine_t} (h1 : step_shape m m1)
    (h2 : step_shape m1 m2) : step_shape m m2 := by
  rcases h2 with h2 | h2
  · rcases h1 with h1 | h1
    · exact Or.inl (h2.trans h1)
    · exact Or.inr (h2 ▸ h1)
  · exact Or.inr h2

theorem shape_estop (m : machine_t) (o : tick_obs) :
    step_shape m (machine_tick_estop m o) := by
  unfold machine_tick_estop
  split_ifs with h
  · exact Or.inr ⟨m, _, rfl, h.2⟩
  · exact Or.inl rfl

theorem shape_motor (m : machine_t) : machine_tick_motor m = m := by
  unfold machine_tick_motor check_motor_fault
  simp

theorem shape_door (m : machine_t) (o : tick_obs) :
    step_shape m (machine_tick_door m o) := by
  unfold machine_tick_door
  split_ifs with h
  · refine Or.inr ⟨m, _, rfl, ?_⟩
    rcases h.2 with h2 | h2 <;> rw [h2] <;> simp
  · exact Or.inl rfl

theorem shape_precool_next (m : machine_t)
    (h : m.st = MACHINE_STATE_PRECOOL) : step_shape m (precool_next m) := by
  unfold precool_next
  split_ifs with hmode
  · exact Or.inr ⟨m, _, rfl, by rw [h]; simp⟩
  · exact Or.inr ⟨m, _, rfl, by rw [h]; simp⟩

theorem shape_logic (m : machine_t) (o : tick_obs) :
    step_shape m (machine_tick_logic m o) := by
  cases hst : m.st <;>
    simp only [machine_tick_logic, hst] <;>
    (try split) <;>
    (try split_ifs) <;>
    first
      | exact Or.inl rfl
      | exact shape_precool_next m hst
      | exact Or.inr ⟨m, _, rfl, by rw [hst]; simp⟩

theorem shape_tick (m : machine_t) (o : tick_obs) :
    step_shape m (machine_tick m o) := by
  unfold machine_tick
  rw [shape_motor]
  exact shape_comp (shape_comp (shape_estop m o)
    (shape_door _ o)) (shape_logic _ o)

theorem shape_start_run (m : machine_t) (sv ga : Bool) (mode : run_mode_t)
    (target : Int) (dur : Nat) :
    step_shape m (machine_state_start_run m sv ga mode target dur).2 := by
  have hne : ∀ x : machine_t, x.st = m.st → x.st ≠ MACHINE_STATE_PRECOOL →
      step_shape m (transition_to x MACHINE_STATE_PRECOOL) :=
    fun x hx hnp => Or.inr ⟨x, _, rfl, hnp⟩
  unfold machine_state_start_run
  split_ifs with h1 h2 h3 h4 <;>
    first
      | exact Or.inl rfl
      | (refine hne _ rfl ?_
         show m.st ≠ MACHINE_STATE_PRECOOL
         first
           | (push_neg at h1; rw [h1]; simp)
           | (push_neg at h2; rw [h2]; simp)
           | (push_neg at h3; rw [h3]; simp)
           | (push_neg at h4; rw [h4]; simp))

theorem st_ne_of_eq {m : machine_t} {a b : machine_state_t}
    (h : ¬ m.st ≠ a) (hne : a ≠ b) : m.st ≠ b := by
  push_neg at h
  rw [h]
  exact hne

theorem shape_stop_run (m : machine_t) (sv : Bool) (mode : stop_mode_t) :
    step_shape m (machine_state_stop_run m sv mode).2 := by
  have hpr : ¬ (m.st ≠ MACHINE_STATE_PRECOOL ∧ m.st ≠ MACHINE_STATE_RUNNING) →
      m.st ≠ MACHINE_STATE_IDLE ∧ m.st ≠ MACHINE_STATE_STOPPING := by
    intro h2
    rcases not_and_or.mp h2 with h | h <;>
      (push_neg at h; rw [h]; exact ⟨by simp, by simp⟩)
  unfold machine_state_stop_run
  split_ifs with h1 h2 h3 <;>
    first
      | exact Or.inl rfl
      | (refine Or.inr ⟨_, _, rfl, ?_⟩
         first
           | (show m.st ≠ MACHINE_STATE_IDLE
              first | exact (hpr h1).1 | exact (hpr h2).1 | exact (hpr h3).1)
           | (show m.st ≠ MACHINE_STATE_STOPPING
              first | exact (hpr h1).2 | exact (hpr h2).2 | exact (hpr h3).2))

theorem shape_enter_service (m : machine_t) (sv : Bool) :
    step_shape m (machine_state_enter_service m sv).2 := by
  unfold machine_state_enter_service
  split_ifs with h1 h2 <;>
    first
      | exact Or.inl rfl
      | (refine Or.inr ⟨_, _, rfl, ?_⟩
         show m.st ≠ MACHINE_STATE_SERVICE
         first
           | exact st_ne_of_eq h1 (by decide)
           | exact st_ne_of_eq h2 (by decide))

theorem shape_exit_service (m : machine_t) (sv : Bool) :
    step_shape m (machine_state_exit_service m sv).2 := by
  unfold machine_state_exit_service
  split_ifs with h1 h2 <;>
    first
      | exact Or.inl rfl
      | (refine Or.inr ⟨_, _, rfl, ?_⟩
         show m.st ≠ MACHINE_STATE_IDLE
         first
           | exact st_ne_of_eq h1 (by decide)
           | exact st_ne_of_eq h2 (by decide))

theorem shape_clear_estop (m : machine_t) (sv : Bool) (di_bits : Nat) :
    step_shape m (machine_state_clear_estop m sv di_bits).2 := by
  unfold machine_state_clear_estop
  split_ifs with h1 h2 h3 <;>
    first
      | exact Or.inl rfl
      | (refine Or.inr ⟨_, _, rfl, ?_⟩
         show m.st ≠ MACHINE_STATE_IDLE
         first
           | exact st_ne_of_eq h1 (by decide)
           | exact st_ne_of_eq h2 (by decide)
           | exact st_ne_of_eq h3 (by decide))

theorem shape_clear_fault (m : machine_t) (sv : Bool) :
    step_shape m (machine_state_clear_fault m sv).2 := by
  unfold machine_state_clear_fault
  split_ifs with h1 h2 h3 <;>
    first
      | exact Or.inl rfl
      | (refine Or.inr ⟨_, _, rfl, ?_⟩
         show m.st ≠ MACHINE_STATE_IDLE
         first
           | exact st_ne_of_eq h1 (by decide)
           | exact st_ne_of_eq h2 (by decide)
           | exact st_ne_of_eq h3 (by decide))

/-- Claim C1 (amended): immediately after the entry action of a
transition into IDLE, E_STOP or FAULT, the six process relays cleared by
`set_outputs_safe` — main contactor, both bearing heaters, LN2 valve,
door lock and motor start — are all 0 (`relays &&& 0x5F = 0`).  The
chamber-light relay (channel 6) and channel 8 are not cleared by the
entry action and may remain set. -/
theorem outputs_safe_C1_amended (m m' : machine_t) (hstep : MachineStep m m')
    (hne : m.st ≠ m'.st)
    (hs : m'.st = MACHINE_STATE_IDLE ∨ m'.st = MACHINE_STATE_E_STOP ∨
          m'.st = MACHINE_STATE_FAULT) :
    m'.relays &&& SAFE_CLEARED_MASK = 0 := by
  have key : ∀ m'' : machine_t, entered m'' →
      (m''.st = MACHINE_STATE_IDLE ∨ m''.st = MACHINE_STATE_E_STOP ∨
       m''.st = MACHINE_STATE_FAULT) →
      m''.relays &&& SAFE_CLEARED_MASK = 0 := by
    rintro m'' ⟨x, s, rfl, hxs⟩ hs'
    obtain ⟨hst, hrel⟩ := transition_to_changed x s hxs
    rw [hrel]
    rw [hst] at hs'
    exact entry_relays_safe s x.relays hs'
  have handle : ∀ m2 : machine_t, step_shape m m2 → m.st ≠ m2.st →
      (m2.st = MACHINE_STATE_IDLE ∨ m2.st = MACHINE_STATE_E_STOP ∨
       m2.st = MACHINE_STATE_FAULT) →
      m2.relays &&& SAFE_CLEARED_MASK = 0 := by
    intro m2 hsh hne2 hs2
    rcases hsh with h | h
    · rw [h] at hne2
      exact absurd rfl hne2
    · exact key m2 h hs2
  cases hstep with
  | tick o => exact handle _ (shape_tick m o) hne hs
  | start_run sv ga mode target dur =>
      exact handle _ (shape_start_run m sv ga mode target dur) hne hs
  | stop_run sv mode => exact handle _ (shape_stop_run m sv mode) hne hs
  | enter_service sv => exact handle _ (shape_enter_service m sv) hne hs
  | exit_service sv => exact handle _ (shape_exit_service m sv) hne hs
  | clear_estop sv di_bits =>
      exact handle _ (shape_clear_estop m sv di_bits) hne hs
  | clear_fault sv => exact handle _ (shape_clear_fault m sv) hne hs
  | force_safe =>
      by_cases h : ({ m with relays := set_outputs_safe m.relays } :
          machine_t).st = MACHINE_STATE_FAULT
      · exfalso
        apply hne
        show m.st = (machine_state_force_safe m).st
        unfold machine_state_force_safe transition_to
        rw [if_pos h]
      · show (machine_state_force_safe m).relays &&& SAFE_CLEARED_MASK = 0
        unfold machine_state_force_safe transition_to
        rw [if_neg h]
        exact set_outputs_safe_masked _
  | cmd_set_relay idx state h1 h2 h3 => exact absurd rfl hne
  | cmd_set_relay_mask mask values h => exact absurd rfl hne

/-- Witness for the amended C1: an E-stop tick out of SERVICE mode with
the chamber light on (relay byte 0x20) still clears every process
relay. -/
theorem outputs_safe_C1_amended_witness :
    (machine_tick
      { st := MACHINE_STATE_SERVICE, relays := 0x20,
        run_mode := RUN_MODE_NORMAL, target_temp_x10 := 0,
        run_duration_ms := 0 }
      { di_bits := 0x06, hmi_live := false, chamber_temp_x10 := none,
        state_duration_ms := 0, run_elapsed_ms := 0 }).relays &&&
      SAFE_CLEARED_MASK = 0 :=
  outputs_safe_C1_amended
    { st := MACHINE_STATE_SERVICE, relays := 0x20,
      run_mode := RUN_MODE_NORMAL, target_temp_x10 := 0,
      run_duration_ms := 0 } _
    (MachineStep.tick _
      { di_bits := 0x06, hmi_live := false, chamber_temp_x10 := none,
        state_duration_ms := 0, run_elapsed_ms := 0 })
    (by decide) (by decide)

/-- Counterexample to C1 as stated: from the initialized machine, the
relay command turns the chamber light (channel 6) on while in IDLE — the
dispatcher accepts `CMD_SET_RELAY` in any state — and a subsequent tick
with the E-Stop input asserted transitions into E_STOP; after the entry
action (`set_outputs_safe`) the relay byte is still 0x20, not 0. -/
theorem outputs_safe_C1_counterexample :
    MachineReachable
      { st := MACHINE_STATE_IDLE, relays := 0x20,
        run_mode := RUN_MODE_NORMAL, target_temp_x10 := 0,
        run_duration_ms := 0 } ∧
    MachineStep
      { st := MACHINE_STATE_IDLE, relays := 0x20,
        run_mode := RUN_MODE_NORMAL, target_temp_x10 := 0,
        run_duration_ms := 0 }
      { st := MACHINE_STATE_E_STOP, relays := 0x20,
        run_mode := RUN_MODE_NORMAL, target_temp_x10 := 0,
        run_duration_ms := 0 } ∧
    MACHINE_STATE_IDLE ≠ MACHINE_STATE_E_STOP ∧
    ({ st := MACHINE_STATE_E_STOP, relays := 0x20,
       run_mode := RUN_MODE_NORMAL, target_temp_x10 := 0,
       run_duration_ms := 0 } : machine_t).relays ≠ 0 := by
  refine ⟨?_, ?_, by decide, by decide⟩
  · exact MachineReachable.step MachineReachable.init
      (MachineStep.cmd_set_relay machine_init 6 1
        (by norm_num) (by norm_num) (by norm_num))
  · exact MachineStep.tick
      { st := MACHINE_STATE_IDLE, relays := 0x20,
        run_mode := RUN_MODE_NORMAL, target_temp_x10 := 0,
        run_duration_ms := 0 }
      { di_bits := 0x06, hmi_live := false, chamber_temp_x10 := none,
        state_duration_ms := 0, run_elapsed_ms := 0 }

/-- Claim C9: an accepted `machine_state_start_run` stores the −50.0 °C
default precool target (−500 tenths) when the supplied target is 0 and
stores a nonzero supplied target unchanged. -/
theorem start_run_target_C9 (m : machine_t) (sv ga : Bool)
    (mode : run_mode_t) (target : Int) (dur : Nat)
    (hok : (machine_state_start_run m sv ga mode target dur).1 = ESP_OK) :
    (target = 0 →
      (machine_state_start_run m sv ga mode target dur).2.target_temp_x10 =
        -500) ∧
    (target ≠ 0 →
      (machine_state_start_run m sv ga mode target dur).2.target_temp_x10 =
        target) := by
  have htrans : ∀ (x : machine_t) (s : machine_state_t),
      (transition_to x s).target_temp_x10 = x.target_temp_x10 := by
    intro x s
    unfold transition_to
    split_ifs <;> rfl
  unfold machine_state_start_run at hok ⊢
  split_ifs at hok ⊢ with h1 h2 h3 h4
  · exact ⟨fun h0 => absurd h0 h4, fun _ => htrans _ _⟩
  · exact ⟨fun _ => htrans _ _,
           fun hne0 => absurd (by push_neg at h4; exact h4) hne0⟩

/-- Witness for C9: accepted start from IDLE with target 0 stores −500;
with target 120 stores 120. -/
theorem start_run_target_C9_witness :
    (((0 : Int) = 0 →
      (machine_state_start_run machine_init true true RUN_MODE_NORMAL 0
        60000).2.target_temp_x10 = -500) ∧
     ((0 : Int) ≠ 0 →
      (machine_state_start_run machine_init true true RUN_MODE_NORMAL 0
        60000).2.target_temp_x10 = 0)) ∧
    (((120 : Int) = 0 →
      (machine_state_start_run machine_init true true RUN_MODE_NORMAL 120
        60000).2.target_temp_x10 = -500) ∧
     ((120 : Int) ≠ 0 →
      (machine_state_start_run machine_init true true RUN_MODE_NORMAL 120
        60000).2.target_temp_x10 = 120)) :=
  ⟨start_run_target_C9 machine_init true true RUN_MODE_NORMAL 0 60000
      (by decide),
   start_run_target_C9 machine_init true true RUN_MODE_NORMAL 120 60000
      (by decide)⟩

/-! ## Single-bit error detection of the CRC (C6) -/

/-- Flipping bit `j` of byte `i` of a byte sequence. -/
def flip_bit (l : List Nat) (i j : Nat) : List Nat :=
  l.set i (l.getD i 0 ^^^ (1 <<< j))

/-- One shift of the CRC-16/CCITT-FALSE LFSR (polynomial 0x1021).
Eight applications starting from `b <<< 8` produce the table entry for
byte `b`, which is how the `crc16_table` constant of wire_protocol.c is
generated.  The feedback term is written as an XOR so that linearity is
immediate. -/
def crc16_bitstep (c : Nat) : Nat :=
  ((c <<< 1) ^^^ (if c.testBit 15 then 0x1021 else 0)) &&& 0xFFFF

/-- Eight LFSR shifts: one full byte. -/
def crc16_bs8 (c : Nat) : Nat :=
  crc16_bitstep (crc16_bitstep (crc16_bitstep (crc16_bitstep
    (crc16_bitstep (crc16_bitstep (crc16_bitstep (crc16_bitstep c)))))))

/-- Difference propagation of one `crc16_step`: two accumulators that
differ by `d` differ by `crc16_stepD d` after absorbing one further
(common) byte. -/
def crc16_stepD (d : Nat) : Nat :=
  ((d <<< 8) ^^^ crc16_tbl ((d >>> 8) &&& 0xFF)) &&& 0xFFFF

theorem and65535_of_lt {x : Nat} (h : x < 65536) : x &&& 65535 = x := by
  rw [and65535_eq_mod]
  omega

theorem xor_shiftLeft (a b n : Nat) :
    (a ^^^ b) <<< n = (a <<< n) ^^^ (b <<< n) := by
  apply Nat.eq_of_testBit_eq
  intro k
  simp only [Nat.testBit_shiftLeft, Nat.testBit_xor, Bool.and_xor_distrib_left]

theorem xor_shiftRight (a b n : Nat) :
    (a ^^^ b) >>> n = (a >>> n) ^^^ (b >>> n) := by
  apply Nat.eq_of_testBit_eq
  intro k
  simp only [Nat.testBit_shiftRight, Nat.testBit_xor]

theorem xor_xor_comm (x y u v : Nat) :
    (x ^^^ y) ^^^ (u ^^^ v) = (x ^^^ u) ^^^ (y ^^^ v) := by
  apply Nat.eq_of_testBit_eq
  intro k
  simp only [Nat.testBit_xor]
  cases x.testBit k <;> cases y.testBit k <;> cases u.testBit k <;>
    cases v.testBit k <;> rfl

theorem crc16_bitstep_xor (a b : Nat) :
    crc16_bitstep (a ^^^ b) = crc16_bitstep a ^^^ crc16_bitstep b := by
  unfold crc16_bitstep
  rw [← Nat.and_xor_distrib_right, xor_shiftLeft]
  congr 1
  rw [xor_xor_comm]
  congr 1
  rw [Nat.testBit_xor]
  cases ha : a.testBit 15 <;> cases hb : b.testBit 15 <;> simp

theorem crc16_bs8_xor (a b : Nat) :
    crc16_bs8 (a ^^^ b) = crc16_bs8 a ^^^ crc16_bs8 b := by
  unfold crc16_bs8
  simp only [crc16_bitstep_xor]

set_option maxHeartbeats 2000000 in
/-- The table of wire_protocol.c is the eight-fold LFSR shift of
`b <<< 8`, checked entry by entry. -/
theorem crc16_tbl_eq_bs8 : ∀ b : Nat, b < 256 → crc16_tbl b = crc16_bs8 (b <<< 8) := by
  decide

set_option maxHeartbeats 2000000 in
theorem crc16_tbl_bound : ∀ b : Nat, b < 256 → crc16_tbl b < 65536 := by
  decide

set_option maxHeartbeats 2000000 in
/-- No nonzero table entry has a zero low byte (the key injectivity fact
behind error propagation). -/
theorem crc16_tbl_low : ∀ h : Nat, h < 256 → h ≠ 0 → crc16_tbl h &&& 255 ≠ 0 := by
  decide

theorem crc16_tbl_lt (i : Nat) : crc16_tbl i < 65536 := by
  by_cases h : i < 256
  · exact crc16_tbl_bound i h
  · show crc16_table.getD i 0 < 65536
    rw [List.getD_eq_getElem?_getD, List.getElem?_eq_none]
    · norm_num
    · push_neg at h
      calc crc16_table.length = 256 := by decide
        _ ≤ i := h

theorem crc16_tbl_xor (a b : Nat) (ha : a < 256) (hb : b < 256) :
    crc16_tbl (a ^^^ b) = crc16_tbl a ^^^ crc16_tbl b := by
  have hab : a ^^^ b < 256 := Nat.xor_lt_two_pow
    (show a < 2 ^ 8 by norm_num; omega) (show b < 2 ^ 8 by norm_num; omega)
  rw [crc16_tbl_eq_bs8 _ ha, crc16_tbl_eq_bs8 _ hb, crc16_tbl_eq_bs8 _ hab,
      xor_shiftLeft, crc16_bs8_xor]

theorem crc16_step_flip (c b e : Nat) (he : e < 256) :
    crc16_step c (b ^^^ e) = crc16_step c b ^^^ crc16_tbl e := by
  unfold crc16_step
  have h1 : ((c >>> 8) ^^^ (b ^^^ e)) &&& 255 =
      (((c >>> 8) ^^^ b) &&& 255) ^^^ e := by
    rw [← Nat.xor_assoc, Nat.and_xor_distrib_right, and255_of_lt he]
  rw [h1, crc16_tbl_xor _ _ (and255_lt _) he, ← Nat.xor_assoc,
      Nat.and_xor_distrib_right, and65535_of_lt (crc16_tbl_lt e)]

theorem crc16_step_xor (c1 c2 b : Nat) :
    crc16_step c1 b ^^^ crc16_step c2 b = crc16_stepD (c1 ^^^ c2) := by
  unfold crc16_step crc16_stepD
  rw [← Nat.and_xor_distrib_right]
  congr 1
  rw [xor_xor_comm, ← xor_shiftLeft]
  congr 1
  rw [← crc16_tbl_xor _ _ (and255_lt _) (and255_lt _)]
  congr 1
  rw [← Nat.and_xor_distrib_right]
  congr 1
  rw [xor_shiftRight, xor_xor_comm, Nat.xor_self, Nat.xor_zero]

theorem crc16_stepD_ne {d : Nat} (hd : d < 65536) (hne : d ≠ 0) :
    crc16_stepD d ≠ 0 := by
  intro h0
  have hshl : (d <<< 8) &&& 255 = 0 := by
    rw [Nat.shiftLeft_eq, and255_eq_mod]
    norm_num [Nat.mul_mod_left]
  have hlow : crc16_tbl ((d >>> 8) &&& 255) &&& 255 = 0 := by
    have h1 : crc16_stepD d &&& 255 = 0 := by
      rw [h0]
      decide
    unfold crc16_stepD at h1
    rw [Nat.and_assoc, (by decide : (65535 : Nat) &&& 255 = 255),
        Nat.and_xor_distrib_right, hshl, Nat.zero_xor] at h1
    exact h1
  have hhi : (d >>> 8) &&& 255 = 0 := by
    by_contra hq
    exact crc16_tbl_low _ (and255_lt _) hq hlow
  have hdiv : d >>> 8 = d / 256 := shiftRight8_eq_div d
  have hd256 : d < 256 := by
    have h2 : d / 256 < 256 := by omega
    have h3 : (d >>> 8) &&& 255 = d / 256 := by
      rw [hdiv]
      exact and255_of_lt h2
    omega
  have hstep : crc16_stepD d = d * 256 := by
    unfold crc16_stepD
    rw [hhi, (by decide : crc16_tbl 0 = 0), Nat.xor_zero, Nat.shiftLeft_eq]
    norm_num
    exact and65535_of_lt (by omega)
  rw [hstep] at h0
  omega

theorem crc16_step_inj (c1 c2 b : Nat) (h1 : c1 < 65536) (h2 : c2 < 65536)
    (hne : c1 ≠ c2) : crc16_step c1 b ≠ crc16_step c2 b := by
  intro heq
  have hx : crc16_stepD (c1 ^^^ c2) = 0 := by
    rw [← crc16_step_xor c1 c2 b, heq, Nat.xor_self]
  have hdlt : c1 ^^^ c2 < 65536 := by
    have ha : c1 < 2 ^ 16 := by norm_num; omega
    have hb : c2 < 2 ^ 16 := by norm_num; omega
    have h := Nat.xor_lt_two_pow ha hb
    norm_num at h
    exact h
  have hdne : c1 ^^^ c2 ≠ 0 := fun hz => hne (Nat.xor_eq_zero.mp hz)
  exact crc16_stepD_ne hdlt hdne hx

theorem crc16_from_append (a : Nat) (l1 l2 : List Nat) :
    crc16_from a (l1 ++ l2) = crc16_from (crc16_from a l1) l2 := by
  unfold crc16_from
  simp [List.foldl_append]

theorem crc16_from_inj (l : List Nat) : ∀ c1 c2 : Nat, c1 < 65536 →
    c2 < 65536 → c1 ≠ c2 → crc16_from c1 l ≠ crc16_from c2 l := by
  induction l with
  | nil => intro c1 c2 _ _ hne; exact hne
  | cons x xs ih =>
      intro c1 c2 h1 h2 hne
      show crc16_from (crc16_step c1 x) xs ≠ crc16_from (crc16_step c2 x) xs
      exact ih _ _ (crc16_step_lt _ _) (crc16_step_lt _ _)
        (crc16_step_inj c1 c2 x h1 h2 hne)

/-- Flipping one byte of the CRC input by a nonzero amount below 256
changes the CRC. -/
theorem crc16_flip_ne (pre : List Nat) (b : Nat) (rest : List Nat) (e : Nat)
    (he : e < 256) (hene : e ≠ 0) :
    wire_crc16 (pre ++ b :: rest) ≠ wire_crc16 (pre ++ (b ^^^ e) :: rest) := by
  unfold wire_crc16
  rw [crc16_from_append, crc16_from_append]
  show crc16_from (crc16_step (crc16_from 65535 pre) b) rest ≠
       crc16_from (crc16_step (crc16_from 65535 pre) (b ^^^ e)) rest
  apply crc16_from_inj rest _ _ (crc16_step_lt _ _) (crc16_step_lt _ _)
  rw [crc16_step_flip _ _ _ he]
  intro hq
  have h2 : crc16_step (crc16_from 65535 pre) b ^^^
      (crc16_step (crc16_from 65535 pre) b ^^^ crc16_tbl e) =
      crc16_step (crc16_from 65535 pre) b ^^^
        crc16_step (crc16_from 65535 pre) b := by
    rw [← hq]
  rw [← Nat.xor_assoc, Nat.xor_self, Nat.zero_xor] at h2
  exact crc16_tbl_low e he hene (by rw [h2]; decide)

theorem getD_append_left_nat (l₁ l₂ : List Nat) (i : Nat) (h : i < l₁.length) :
    (l₁ ++ l₂).getD i 0 = l₁.getD i 0 := by
  simp [List.getD_eq_getElem?_getD, List.getElem?_append_left h]

theorem getD_set_ne_nat (l : List Nat) (i k v : Nat) (h : i ≠ k) :
    (l.set i v).getD k 0 = l.getD k 0 := by
  simp [List.getD_eq_getElem?_getD, List.getElem?_set_ne h]

theorem or_shl_eq {x : Nat} (y : Nat) (hx : x < 256) :
    x ||| y <<< 8 = 256 * y + x := by
  rw [Nat.shiftLeft_eq, Nat.or_comm, Nat.mul_comm]
  rw [← Nat.mul_add_lt_is_or (show x < 2 ^ 8 by norm_num; omega) y]

theorem or_shl_low {x : Nat} (y : Nat) (hx : x < 256) :
    (x ||| y <<< 8) &&& 255 = x := by
  rw [or_shl_eq y hx, and255_eq_mod]
  omega

theorem or_shl_high {x : Nat} (y : Nat) (hx : x < 256) :
    (x ||| y <<< 8) >>> 8 = y := by
  rw [or_shl_eq y hx, shiftRight8_eq_div]
  omega

theorem xor_ne_self {a e : Nat} (he : e ≠ 0) : a ^^^ e ≠ a := by
  intro h
  apply he
  have h2 : a ^^^ (a ^^^ e) = a ^^^ a := by rw [h]
  rwa [← Nat.xor_assoc, Nat.xor_self, Nat.zero_xor] at h2

theorem parse_none_of_version (f : List Nat) (hlen : 8 ≤ f.length)
    (hv : f.getD 0 0 ≠ 1) : wire_parse_frame f = none := by
  simp only [wire_parse_frame, WIRE_HEADER_SIZE, WIRE_CRC_SIZE,
    WIRE_MAX_PAYLOAD, WIRE_PROTO_VERSION]
  rw [if_neg (by omega), if_pos hv]

theorem parse_none_of_crc (f : List Nat) (n : Nat)
    (hlen : f.length = 6 + n + 2) (hn : n ≤ 512)
    (hv : f.getD 0 0 = 1) (h4 : read16le f 4 = n)
    (hcrc : read16le f (6 + n) ≠ wire_crc16 (f.take (6 + n))) :
    wire_parse_frame f = none := by
  simp only [wire_parse_frame, WIRE_HEADER_SIZE, WIRE_CRC_SIZE,
    WIRE_MAX_PAYLOAD, WIRE_PROTO_VERSION]
  rw [hv, h4]
  rw [if_neg (by omega), if_neg (by simp), if_neg (by omega), if_pos hcrc]

/-- Claim C6 (amended): flipping any single bit of a frame produced by
`wire_build_frame` at a byte index other than 4 or 5 (the declared
payload-length field) yields a byte sequence on which `wire_parse_frame`
fails.  A flip inside bytes 4–5 changes the declared payload length and
can re-frame the bytes into a different parseable frame; see the
counterexample. -/
theorem crc_flip_C6_amended (out_buf_size msg_type seq : Nat)
    (payload : List Nat) (frame : List Nat) (i j : Nat)
    (hbuild : wire_build_frame out_buf_size msg_type seq payload = some frame)
    (hij : i < frame.length) (hj : j < 8) (hi4 : i ≠ 4) (hi5 : i ≠ 5) :
    wire_parse_frame (flip_bit frame i j) = none := by
  by_cases hb : 6 + payload.length + 2 ≤ out_buf_size ∧ payload.length ≤ 512
  · obtain ⟨hbuf, hlen⟩ := hb
    rw [wire_build_frame_eq msg_type seq payload out_buf_size hbuf hlen]
      at hbuild
    injection hbuild with hfeq
    subst hfeq
    generalize hc : wire_crc16 (wireFront msg_type seq payload) = c at hij ⊢
    have hclt : c < 65536 := by
      rw [← hc]
      exact wire_crc16_lt _
    have hlenW := wireFront_length msg_type seq payload
    have hlenF : (wireFront msg_type seq payload ++
        [c &&& 0xFF, (c >>> 8) &&& 0xFF]).length = 6 + payload.length + 2 := by
      rw [List.length_append, hlenW]
      rfl
    rw [hlenF] at hij
    have h2j : 0 < 2 ^ j := pow_pos (by norm_num) j
    have h2jb : 2 ^ j ≤ 2 ^ 7 := Nat.pow_le_pow_right (by norm_num) (by omega)
    have heb : (1 : Nat) <<< j < 256 := by
      rw [Nat.one_shiftLeft]
      norm_num at h2jb ⊢
      omega
    have hene : (1 : Nat) <<< j ≠ 0 := by
      rw [Nat.one_shiftLeft]
      omega
    simp only [flip_bit]
    by_cases hi0 : i = 0
    · -- the flip hits the protocol-version byte
      subst hi0
      have hv : ((wireFront msg_type seq payload ++
          [c &&& 0xFF, (c >>> 8) &&& 0xFF]).set 0
            ((wireFront msg_type seq payload ++
              [c &&& 0xFF, (c >>> 8) &&& 0xFF]).getD 0 0 ^^^ (1 <<< j))).getD
          0 0 = 1 ^^^ (1 <<< j) := rfl
      apply parse_none_of_version
      · rw [List.length_set, hlenF]
        omega
      · rw [hv]
        exact xor_ne_self hene
    by_cases hmid : i < 6 + payload.length
    · -- the flip hits a CRC-covered byte other than the length field
      have hiT : i < (wireFront msg_type seq payload).length := by
        rw [hlenW]
        omega
      have hset : (wireFront msg_type seq payload ++
          [c &&& 0xFF, (c >>> 8) &&& 0xFF]).set i
            ((wireFront msg_type seq payload ++
              [c &&& 0xFF, (c >>> 8) &&& 0xFF]).getD i 0 ^^^ (1 <<< j)) =
          (wireFront msg_type seq payload).set i
            ((wireFront msg_type seq payload).getD i 0 ^^^ (1 <<< j)) ++
          [c &&& 0xFF, (c >>> 8) &&& 0xFF] := by
        rw [getD_append_left_nat _ _ _ hiT, List.set_append_left _ _ hiT]
      rw [hset]
      have hT2len : ((wireFront msg_type seq payload).set i
          ((wireFront msg_type seq payload).getD i 0 ^^^ (1 <<< j))).length =
          6 + payload.length := by
        rw [List.length_set]
        exact hlenW
      have hTsplit : wireFront msg_type seq payload =
          (wireFront msg_type seq payload).take i ++
            (wireFront msg_type seq payload).getD i 0 ::
            (wireFront msg_type seq payload).drop (i + 1) := by
        rw [List.getD_eq_getElem _ _ hiT, ← List.drop_eq_getElem_cons hiT,
          List.take_append_drop]
      have hT2split : (wireFront msg_type seq payload).set i
          ((wireFront msg_type seq payload).getD i 0 ^^^ (1 <<< j)) =
          (wireFront msg_type seq payload).take i ++
            ((wireFront msg_type seq payload).getD i 0 ^^^ (1 <<< j)) ::
            (wireFront msg_type seq payload).drop (i + 1) := by
        rw [List.set_eq_take_append_cons_drop, if_pos hiT]
      have hcrcne : wire_crc16 (wireFront msg_type seq payload) ≠
          wire_crc16 ((wireFront msg_type seq payload).set i
            ((wireFront msg_type seq payload).getD i 0 ^^^ (1 <<< j))) := by
        rw [hT2split]
        conv_lhs => rw [hTsplit]
        exact crc16_flip_ne _ _ _ _ heb hene
      rw [hc] at hcrcne
      apply parse_none_of_crc _ payload.length
      · rw [List.length_append, hT2len]
        rfl
      · exact hlen
      · rw [getD_append_left_nat _ _ _ (by rw [hT2len]; omega),
          getD_set_ne_nat _ _ _ _ hi0]
        rfl
      · show ((wireFront msg_type seq payload).set i
            ((wireFront msg_type seq payload).getD i 0 ^^^ (1 <<< j)) ++
            [c &&& 0xFF, (c >>> 8) &&& 0xFF]).getD 4 0 |||
          (((wireFront msg_type seq payload).set i
            ((wireFront msg_type seq payload).getD i 0 ^^^ (1 <<< j)) ++
            [c &&& 0xFF, (c >>> 8) &&& 0xFF]).getD (4 + 1) 0 <<< 8) =
          payload.length
        have e4 : ((wireFront msg_type seq payload).set i
            ((wireFront msg_type seq payload).getD i 0 ^^^ (1 <<< j)) ++
            [c &&& 0xFF, (c >>> 8) &&& 0xFF]).getD 4 0 =
            payload.length &&& 0xFF := by
          rw [getD_append_left_nat _ _ _ (by rw [hT2len]; omega),
            getD_set_ne_nat _ _ _ _ hi4]
          rfl
        have e5 : ((wireFront msg_type seq payload).set i
            ((wireFront msg_type seq payload).getD i 0 ^^^ (1 <<< j)) ++
            [c &&& 0xFF, (c >>> 8) &&& 0xFF]).getD (4 + 1) 0 =
            (payload.length >>> 8) &&& 0xFF := by
          rw [getD_append_left_nat _ _ _ (by rw [hT2len]; omega),
            getD_set_ne_nat _ _ _ _ (by omega)]
          rfl
        rw [e4, e5]
        exact lo_hi_or_eq (by omega)
      · have e6 : ((wireFront msg_type seq payload).set i
            ((wireFront msg_type seq payload).getD i 0 ^^^ (1 <<< j)) ++
            [c &&& 0xFF, (c >>> 8) &&& 0xFF]).getD (6 + payload.length) 0 =
            c &&& 0xFF := by
          rw [getD_append_right_nat _ _ _ (le_of_eq hT2len), hT2len]
          simp
        have e7 : ((wireFront msg_type seq payload).set i
            ((wireFront msg_type seq payload).getD i 0 ^^^ (1 <<< j)) ++
            [c &&& 0xFF, (c >>> 8) &&& 0xFF]).getD (6 + payload.length + 1)
            0 = (c >>> 8) &&& 0xFF := by
          rw [getD_append_right_nat _ _ _ (by rw [hT2len]; omega), hT2len]
          have hd : 6 + payload.length + 1 - (6 + payload.length) = 1 := by
            omega
          rw [hd]
          simp
        have hstored : read16le ((wireFront msg_type seq payload).set i
            ((wireFront msg_type seq payload).getD i 0 ^^^ (1 <<< j)) ++
            [c &&& 0xFF, (c >>> 8) &&& 0xFF]) (6 + payload.length) = c := by
          show ((wireFront msg_type seq payload).set i
              ((wireFront msg_type seq payload).getD i 0 ^^^ (1 <<< j)) ++
              [c &&& 0xFF, (c >>> 8) &&& 0xFF]).getD (6 + payload.length)
              0 |||
            (((wireFront msg_type seq payload).set i
              ((wireFront msg_type seq payload).getD i 0 ^^^ (1 <<< j)) ++
              [c &&& 0xFF, (c >>> 8) &&& 0xFF]).getD (6 + payload.length + 1)
              0 <<< 8) = c
          rw [e6, e7]
          exact lo_hi_or_eq hclt
        rw [hstored, List.take_left' hT2len]
        exact hcrcne
    · -- the flip hits one of the two stored CRC bytes
      have hge : (wireFront msg_type seq payload).length ≤ i := by
        rw [hlenW]
        omega
      have hset2 : (wireFront msg_type seq payload ++
          [c &&& 0xFF, (c >>> 8) &&& 0xFF]).set i
            ((wireFront msg_type seq payload ++
              [c &&& 0xFF, (c >>> 8) &&& 0xFF]).getD i 0 ^^^ (1 <<< j)) =
          wireFront msg_type seq payload ++
            ([c &&& 0xFF, (c >>> 8) &&& 0xFF].set
              (i - (wireFront msg_type seq payload).length)
              ([c &&& 0xFF, (c >>> 8) &&& 0xFF].getD
                (i - (wireFront msg_type seq payload).length) 0 ^^^
                (1 <<< j))) := by
        rw [getD_append_right_nat _ _ _ hge, List.set_append_right _ _ hge]
      rw [hset2, hlenW]
      by_cases hk0 : i = 6 + payload.length
      · subst hk0
        rw [Nat.sub_self]
        have hB : ([c &&& 0xFF, (c >>> 8) &&& 0xFF].set 0
            ([c &&& 0xFF, (c >>> 8) &&& 0xFF].getD 0 0 ^^^ (1 <<< j))) =
            [(c &&& 0xFF) ^^^ (1 <<< j), (c >>> 8) &&& 0xFF] := rfl
        rw [hB]
        have hxlt : (c &&& 255) ^^^ (1 <<< j) < 256 := by
          have hxa : c &&& 255 < 2 ^ 8 := by
            have h := and255_lt c
            norm_num
            omega
          have hxb : (1 : Nat) <<< j < 2 ^ 8 := by
            norm_num
            omega
          have h := Nat.xor_lt_two_pow hxa hxb
          norm_num at h
          exact h
        apply parse_none_of_crc _ payload.length
        · rw [List.length_append, hlenW]
          rfl
        · exact hlen
        · rw [getD_append_left_nat _ _ _ (by rw [hlenW]; omega)]
          rfl
        · show (wireFront msg_type seq payload ++
              [(c &&& 0xFF) ^^^ (1 <<< j), (c >>> 8) &&& 0xFF]).getD 4 0 |||
            ((wireFront msg_type seq payload ++
              [(c &&& 0xFF) ^^^ (1 <<< j), (c >>> 8) &&& 0xFF]).getD (4 + 1)
              0 <<< 8) = payload.length
          have e4 : (wireFront msg_type seq payload ++
              [(c &&& 0xFF) ^^^ (1 <<< j), (c >>> 8) &&& 0xFF]).getD 4 0 =
              payload.length &&& 0xFF := by
            rw [getD_append_left_nat _ _ _ (by rw [hlenW]; omega)]
            rfl
          have e5 : (wireFront msg_type seq payload ++
              [(c &&& 0xFF) ^^^ (1 <<< j), (c >>> 8) &&& 0xFF]).getD (4 + 1)
              0 = (payload.length >>> 8) &&& 0xFF := by
            rw [getD_append_left_nat _ _ _ (by rw [hlenW]; omega)]
            rfl
          rw [e4, e5]
          exact lo_hi_or_eq (by omega)
        · have e6 : (wireFront msg_type seq payload ++
              [(c &&& 0xFF) ^^^ (1 <<< j), (c >>> 8) &&& 0xFF]).getD
              (6 + payload.length) 0 = (c &&& 0xFF) ^^^ (1 <<< j) := by
            rw [getD_append_right_nat _ _ _ (le_of_eq hlenW), hlenW]
            simp
          have e7 : (wireFront msg_type seq payload ++
              [(c &&& 0xFF) ^^^ (1 <<< j), (c >>> 8) &&& 0xFF]).getD
              (6 + payload.length + 1) 0 = (c >>> 8) &&& 0xFF := by
            rw [getD_append_right_nat _ _ _ (by rw [hlenW]; omega), hlenW]
            have hd : 6 + payload.length + 1 - (6 + payload.length) = 1 := by
              omega
            rw [hd]
            simp
          have hstored : read16le (wireFront msg_type seq payload ++
              [(c &&& 0xFF) ^^^ (1 <<< j), (c >>> 8) &&& 0xFF])
              (6 + payload.length) =
              ((c &&& 255) ^^^ (1 <<< j)) ||| (((c >>> 8) &&& 255) <<< 8) := by
            show (wireFront msg_type seq payload ++
                [(c &&& 0xFF) ^^^ (1 <<< j), (c >>> 8) &&& 0xFF]).getD
                (6 + payload.length) 0 |||
              ((wireFront msg_type seq payload ++
                [(c &&& 0xFF) ^^^ (1 <<< j), (c >>> 8) &&& 0xFF]).getD
                (6 + payload.length + 1) 0 <<< 8) =
              ((c &&& 255) ^^^ (1 <<< j)) ||| (((c >>> 8) &&& 255) <<< 8)
            rw [e6, e7]
          rw [hstored, List.take_left' hlenW, hc]
          intro hq
          have h2 := congrArg (fun z => z &&& 255) hq
          simp only at h2
          rw [or_shl_low _ hxlt] at h2
          exact xor_ne_self hene h2
      · have hk1 : i = 6 + payload.length + 1 := by omega
        subst hk1
        have hd1 : 6 + payload.length + 1 - (6 + payload.length) = 1 := by
          omega
        rw [hd1]
        have hB : ([c &&& 0xFF, (c >>> 8) &&& 0xFF].set 1
            ([c &&& 0xFF, (c >>> 8) &&& 0xFF].getD 1 0 ^^^ (1 <<< j))) =
            [c &&& 0xFF, ((c >>> 8) &&& 0xFF) ^^^ (1 <<< j)] := rfl
        rw [hB]
        apply parse_none_of_crc _ payload.length
        · rw [List.length_append, hlenW]
          rfl
        · exact hlen
        · rw [getD_append_left_nat _ _ _ (by rw [hlenW]; omega)]
          rfl
        · show (wireFront msg_type seq payload ++
              [c &&& 0xFF, ((c >>> 8) &&& 0xFF) ^^^ (1 <<< j)]).getD 4 0 |||
            ((wireFront msg_type seq payload ++
              [c &&& 0xFF, ((c >>> 8) &&& 0xFF) ^^^ (1 <<< j)]).getD (4 + 1)
              0 <<< 8) = payload.length
          have e4 : (wireFront msg_type seq payload ++
              [c &&& 0xFF, ((c >>> 8) &&& 0xFF) ^^^ (1 <<< j)]).getD 4 0 =
              payload.length &&& 0xFF := by
            rw [getD_append_left_nat _ _ _ (by rw [hlenW]; omega)]
            rfl
          have e5 : (wireFront msg_type seq payload ++
              [c &&& 0xFF, ((c >>> 8) &&& 0xFF) ^^^ (1 <<< j)]).getD (4 + 1)
              0 = (payload.length >>> 8) &&& 0xFF := by
            rw [getD_append_left_nat _ _ _ (by rw [hlenW]; omega)]
            rfl
          rw [e4, e5]
          exact lo_hi_or_eq (by omega)
        · have e6 : (wireFront msg_type seq payload ++
              [c &&& 0xFF, ((c >>> 8) &&& 0xFF) ^^^ (1 <<< j)]).getD
              (6 + payload.length) 0 = c &&& 0xFF := by
            rw [getD_append_right_nat _ _ _ (le_of_eq hlenW), hlenW]
            simp
          have e7 : (wireFront msg_type seq payload ++
              [c &&& 0xFF, ((c >>> 8) &&& 0xFF) ^^^ (1 <<< j)]).getD
              (6 + payload.length + 1) 0 =
              ((c >>> 8) &&& 0xFF) ^^^ (1 <<< j) := by
            rw [getD_append_right_nat _ _ _ (by rw [hlenW]; omega), hlenW]
            have hd : 6 + payload.length + 1 - (6 + payload.length) = 1 := by
              omega
            rw [hd]
            simp
          have hstored : read16le (wireFront msg_type seq payload ++
              [c &&& 0xFF, ((c >>> 8) &&& 0xFF) ^^^ (1 <<< j)])
              (6 + payload.length) =
              (c &&& 255) ||| ((((c >>> 8) &&& 255) ^^^ (1 <<< j)) <<< 8) := by
            show (wireFront msg_type seq payload ++
                [c &&& 0xFF, ((c >>> 8) &&& 0xFF) ^^^ (1 <<< j)]).getD
                (6 + payload.length) 0 |||
              ((wireFront msg_type seq payload ++
                [c &&& 0xFF, ((c >>> 8) &&& 0xFF) ^^^ (1 <<< j)]).getD
                (6 + payload.length + 1) 0 <<< 8) =
              (c &&& 255) ||| ((((c >>> 8) &&& 255) ^^^ (1 <<< j)) <<< 8)
            rw [e6, e7]
          rw [hstored, List.take_left' hlenW, hc]
          intro hq
          have h2 := congrArg (fun z => z >>> 8) hq
          simp only at h2
          rw [or_shl_high _ (and255_lt c)] at h2
          have hlt8 : c >>> 8 < 256 := by
            rw [shiftRight8_eq_div]
            omega
          exact xor_ne_self hene (h2.trans (and255_of_lt hlt8).symm)
  · have hnone : wire_build_frame out_buf_size msg_type seq payload =
        none := by
      show (if out_buf_size < 6 + payload.length + 2 ∨ payload.length > 512
            then (none : Option (List Nat)) else _) = none
      rw [if_pos (by omega)]
    rw [hnone] at hbuild
    exact absurd hbuild (by simp)

/-- The frame built from message type 1, sequence 0 and the crafted
payload `[0xE1, 0xE1]` (0xE1E1 is the CRC of the six header bytes with a
declared length of 0, so the payload doubles as a valid CRC for the
truncated frame). -/
def c6_frame : List Nat := [1, 1, 0, 0, 2, 0, 0xE1, 0xE1, 104, 237]

/-- Counterexample to C6 as stated: flipping bit 1 of byte 4 of
`c6_frame` — the low byte of the declared payload length — turns the
length from 2 into 0, and `wire_parse_frame` still succeeds (it
re-reads the crafted payload bytes as the stored CRC of the shortened
frame). -/
theorem crc_flip_C6_counterexample :
    wire_build_frame 32 1 0 [0xE1, 0xE1] = some c6_frame ∧
    wire_parse_frame (flip_bit c6_frame 4 1) ≠ none := by
  decide

/-- Witness for the amended C6 at a concrete flip: bit 0 of byte 0 of
`c6_frame`. -/
theorem crc_flip_C6_amended_witness :
    wire_parse_frame (flip_bit c6_frame 0 0) = none :=
  crc_flip_C6_amended 32 1 0 [0xE1, 0xE1] c6_frame 0 0 (by decide) (by decide)
    (by decide) (by decide) (by decide)
